import Mathlib

/-! Verification development for `src/trackers/tracker.js`

A shallow embedding of the `Tracker` base class: the haversine distance
(`getDistance`), the coordinate-ingestion pipeline (`insert_coordinates`),
the configuration reload (`loadConfigFromDB`) and the auxiliary decoders
(`getMNC`, `parseCoordinate`).

Conventions of the embedding.

* JavaScript objects used as records (`coordinate_params`, the configuration
  set, the tracker data bag) are insertion-ordered dictionaries `Dict`.
* Promises are modelled by their outcome (`Outcome`): resolved with a value
  or rejected with a reason.  The collaborators (document store, geocoder,
  notification provider, clock) are gathered in a `World`; the pipeline is a
  total function from its arguments and a `World` to the list of effects it
  performs, in program order.
* Numbers of the distance computation live in an arbitrary carrier `α` with
  the four arithmetic operations, decimal literals and a decidable `<`; the
  `Math` functions are passed as a `MathObj α`.  The carrier can be IEEE
  doubles, the rationals or the reals.
-/

namespace TrackerJS

/-! ## JavaScript values and objects -/

/-- Broken-down local time of a JavaScript `Date` (the process time zone is fixed). -/
structure LocalTime where
  year : Nat
  month : Nat
  date : Nat
  hours : Nat
  minutes : Nat
  seconds : Nat
  milliseconds : Nat
  deriving DecidableEq, Repr

/-- JavaScript values that occur as fields of the records handled here.  A finite Number
is given by its value `num q` (every finite double is a rational; the sign of zero, which
no operation of this file observes, is not recorded). -/
inductive JSVal where
  | undefined
  | null
  | bool (b : Bool)
  | num (q : ℚ)
  | nan
  | infinity (negative : Bool)
  | str (s : String)
  | date (t : LocalTime)
  deriving DecidableEq, Repr

/-- JavaScript truthiness (`ToBoolean`). -/
def JSVal.truthy : JSVal → Bool
  | .undefined => false
  | .null => false
  | .bool b => b
  | .num q => q ≠ 0
  | .nan => false
  | .infinity _ => true
  | .str s => s ≠ ""
  | .date _ => true

/-- Loose equality `v == s` of a value with a string literal that is not numeric
(`'GSM'`): only the same string is equal to it. -/
def JSVal.looseEqStr (v : JSVal) (s : String) : Bool :=
  match v with
  | .str t => t = s
  | _ => false

/-- Insertion-ordered dictionary with string keys: a JavaScript object used as a record. -/
abbrev Dict (β : Type) := List (String × β)

/-- Own-property lookup. -/
def Dict.find {β : Type} : Dict β → String → Option β
  | [], _ => none
  | (k, v) :: rest, key => if k = key then some v else Dict.find rest key

/-- Assignment `o[key] = v`: overwrites an existing property in place, appends a new one. -/
def Dict.assign {β : Type} : Dict β → String → β → Dict β
  | [], key, v => [(key, v)]
  | (k, x) :: rest, key, v =>
    if k = key then (k, v) :: rest else (k, x) :: Dict.assign rest key v

/-- Operator `delete o[key]`. -/
def Dict.remove {β : Type} (o : Dict β) (key : String) : Dict β :=
  o.filter (fun e => decide (e.1 ≠ key))

/-- Own keys of the object, as `Object.keys` counts them. -/
def Dict.keys {β : Type} (o : Dict β) : List String :=
  o.map Prod.fst

/-- A record of JavaScript values. -/
abbrev Obj := Dict JSVal

/-- Property read `o.key`: `undefined` when the property is absent. -/
def Obj.get (o : Obj) (key : String) : JSVal :=
  (Dict.find o key).getD JSVal.undefined

/-- Whether the object has the property `key`. -/
def Obj.has (o : Obj) (key : String) : Bool :=
  (Dict.find o key).isSome

/-! ## Strings and Numbers of the decoders -/

/-- A JavaScript string value as the decoders see it: the sequence of its UTF-16 code
units. -/
abbrev JSString := List Nat

/-- UTF-16 code units of a text (a code point above `0xFFFF` gives a surrogate pair). -/
def codeUnits (s : String) : JSString :=
  s.toList.flatMap (fun c =>
    if c.toNat < 65536 then [c.toNat]
    else [55296 + (c.toNat - 65536) / 1024, 56320 + (c.toNat - 65536) % 1024])

/-- The Number type of the engine, as far as the decoders produce Numbers: the Number
`ofMathematical x` for a non-negative mathematical value `x` (for IEEE doubles the nearest
double, `Infinity` beyond the range; for exact arithmetic `x` itself), NaN and
`Infinity`.  The arithmetic on Numbers is that of the carrier `α`. -/
structure NumberSystem (α : Type) where
  ofMathematical : ℚ → α
  nan : α
  infinity : α

/-- Code units of `StrWhiteSpaceChar` (white space and line terminators). -/
def isStrWhiteSpace (c : Nat) : Bool :=
  c ∈ [9, 10, 11, 12, 13, 32, 160, 5760, 8192, 8193, 8194, 8195, 8196, 8197,
    8198, 8199, 8200, 8201, 8202, 8232, 8233, 8239, 8287, 12288, 65279]

/-- Decimal digit test (`0` to `9`). -/
def isDecimalDigit (c : Nat) : Bool :=
  decide (48 ≤ c ∧ c ≤ 57)

/-- Value of a decimal digit. -/
def decimalDigitValue (c : Nat) : Nat :=
  c - 48

/-- Mathematical value of a string of decimal digits. -/
def decimalValue (ds : JSString) : Nat :=
  ds.foldl (fun acc c => 10 * acc + decimalDigitValue c) 0

/-- Hexadecimal digit value, if the code unit is a hexadecimal digit. -/
def hexDigitValue (c : Nat) : Option Nat :=
  if 48 ≤ c ∧ c ≤ 57 then some (c - 48)
  else if 97 ≤ c ∧ c ≤ 102 then some (c - 87)
  else if 65 ≤ c ∧ c ≤ 70 then some (c - 55)
  else none

/-- Mathematical value of a string of hexadecimal digits. -/
def hexValue (ds : JSString) : Nat :=
  ds.foldl (fun acc c => 16 * acc + (hexDigitValue c).getD 0) 0

/-- Method `String.prototype.indexOf` for a search string of one code unit: `-1` when
absent. -/
def indexOf (s : JSString) (c : Nat) : Int :=
  if s.indexOf c < s.length then (s.indexOf c : Int) else -1

/-- Method `String.prototype.substring(indexStart, indexEnd)`: both indices are
clamped to `[0, length]` and swapped when out of order; a missing `indexEnd` is the length. -/
def substring (s : JSString) (indexStart : Int) (indexEnd : Option Int) : JSString :=
  let clamp : Int → Nat := fun i => (min (max i 0) (s.length : Int)).toNat
  let a := clamp indexStart
  let b := match indexEnd with
    | none => s.length
    | some e => clamp e
  (s.drop (min a b)).take (max a b - min a b)

/-- Splits an optional sign (`-` is 45, `+` is 43) off the front of a string:
`(isNegative, rest)`. -/
def splitSign (s : JSString) : Bool × JSString :=
  match s with
  | c :: r => if c = 45 then (true, r) else if c = 43 then (false, r) else (false, s)
  | [] => (false, s)

/-- Whether the string starts with `0x` or `0X`. -/
def hasHexPrefix (s : JSString) : Bool :=
  match s with
  | c0 :: c1 :: _ => decide (c0 = 48 ∧ (c1 = 120 ∨ c1 = 88))
  | _ => false

section Decoders

variable {α : Type} [Neg α]

/-- The Number `sign × x` for a non-negative mathematical value `x`. -/
def signedNumber (N : NumberSystem α) (negative : Bool) (x : ℚ) : α :=
  if negative then -(N.ofMathematical x) else N.ofMathematical x

/-- Global `parseInt(string)` without a radix: leading white space is skipped, a sign
is read, a `0x`/`0X` prefix selects radix 16 (radix 10 otherwise), and the longest
prefix of digits is converted; NaN when there is no digit. -/
def parseInt (N : NumberSystem α) (s : JSString) : α :=
  let t := splitSign (s.dropWhile isStrWhiteSpace)
  if hasHexPrefix t.2 then
    let z := (t.2.drop 2).takeWhile (fun c => (hexDigitValue c).isSome)
    if z = [] then N.nan else signedNumber N t.1 (hexValue z : ℚ)
  else
    let z := t.2.takeWhile isDecimalDigit
    if z = [] then N.nan else signedNumber N t.1 (decimalValue z : ℚ)

/-- Exponent part `[eE][+-]?digits` at the front of a string: its value, `0` when absent. -/
def exponentPart : JSString → Int
  | c :: r =>
    if c = 101 ∨ c = 69 then
      let t := splitSign r
      let z := t.2.takeWhile isDecimalDigit
      if z = [] then 0 else if t.1 then -(decimalValue z : Int) else (decimalValue z : Int)
    else 0
  | [] => 0

/-- Global `parseFloat(string)`: leading white space is skipped and the longest prefix
that is a decimal literal (sign, then `Infinity` or integer digits, `.`, fraction digits,
exponent) is converted; NaN when there is none. -/
def parseFloat (N : NumberSystem α) (s : JSString) : α :=
  let t := splitSign (s.dropWhile isStrWhiteSpace)
  let ip := t.2.takeWhile isDecimalDigit
  let r1 := t.2.dropWhile isDecimalDigit
  let fp : JSString := match r1 with
    | 46 :: r => r.takeWhile isDecimalDigit
    | _ => []
  let r2 : JSString := match r1 with
    | 46 :: r => r.dropWhile isDecimalDigit
    | _ => r1
  if t.2.take 8 = codeUnits "Infinity" then (if t.1 then -N.infinity else N.infinity)
  else if ip = [] ∧ fp = [] then N.nan
  else signedNumber N t.1
    (((decimalValue ip : ℚ) + (decimalValue fp : ℚ) / 10 ^ fp.length) * 10 ^ exponentPart r2)

end Decoders

/-! ## `moment(...).format(...)` -/

/-- Helper `zeroFill` of moment for a non-negative number: decimal digits, left-padded with `0`. -/
def zeroFill (n width : Nat) : List Char :=
  List.replicate (width - (Nat.toDigits 10 n).length) '0' ++ Nat.toDigits 10 n

/-- Token `h`/`hh` of moment: the hour on the 12-hour clock, `hours % 12 || 12`. -/
def hFormat (hours : Nat) : Nat :=
  if hours % 12 = 0 then 12 else hours % 12

/-- Expansion of a moment format string, for the tokens `YYYY`, `MM`, `DD`, `HH`, `hh`,
`mm`, `ss`, `SSS`; every other character is copied (the remaining letter tokens of
moment are not used by the source and not modelled). -/
def expandFormat (t : LocalTime) : List Char → List Char
  | 'Y' :: 'Y' :: 'Y' :: 'Y' :: r => zeroFill t.year 4 ++ expandFormat t r
  | 'M' :: 'M' :: r => zeroFill t.month 2 ++ expandFormat t r
  | 'D' :: 'D' :: r => zeroFill t.date 2 ++ expandFormat t r
  | 'H' :: 'H' :: r => zeroFill t.hours 2 ++ expandFormat t r
  | 'h' :: 'h' :: r => zeroFill (hFormat t.hours) 2 ++ expandFormat t r
  | 'm' :: 'm' :: r => zeroFill t.minutes 2 ++ expandFormat t r
  | 's' :: 's' :: r => zeroFill t.seconds 2 ++ expandFormat t r
  | 'S' :: 'S' :: 'S' :: r => zeroFill t.milliseconds 3 ++ expandFormat t r
  | c :: r => c :: expandFormat t r
  | [] => []

/-- Call `moment(date).format(fmt)`, on the local time of `date`. -/
def moment_format (t : LocalTime) (fmt : String) : String :=
  String.mk (expandFormat t fmt.toList)

/-! ## `getDistance` -/

/-- Object with `latitude` and `longitude` in decimal degrees. -/
structure Coordinates (α : Type) where
  latitude : α
  longitude : α

/-- The functions of the global `Math` object used by the source. -/
structure MathObj (α : Type) where
  cos : α → α
  asin : α → α
  sqrt : α → α

section Distance

variable {α : Type} [Add α] [Sub α] [Mul α] [Div α] [OfScientific α]

/-- Local variable `a` of `getDistance` (lines 205-211). -/
def getDistance_a (Math : MathObj α) (coordinates1 coordinates2 : Coordinates α) : α :=
  let p : α := 0.017453292519943295
  (0.5 : α) -
    Math.cos ((coordinates2.latitude - coordinates1.latitude) * p) / (2.0 : α) +
    Math.cos (coordinates1.latitude * p) * Math.cos (coordinates2.latitude * p) *
    ((1.0 : α) - Math.cos ((coordinates2.longitude - coordinates1.longitude) * p)) / (2.0 : α)

/-- Method `getDistance(coordinates1, coordinates2)` (lines 202-215). -/
def getDistance (Math : MathObj α) (coordinates1 coordinates2 : Coordinates α) : α :=
  (12742000.0 : α) * Math.asin (Math.sqrt (getDistance_a Math coordinates1 coordinates2))

end Distance

/-! ## Auxiliary decoders -/

/-- Method `getMNC(network)` (lines 343-358). -/
def getMNC (network : String) : String :=
  if network = "TIM" then "04"
  else if network = "VIVO" then "06"
  else if network = "OI" then "16"
  else if network = "CLARO" then "05"
  else "02"

/-- Method `parseCoordinate(value, orientation)` (lines 360-373), on the Numbers of the
carrier `α`: `.` is the code unit 46, the literals are those of the carrier. -/
def parseCoordinate {α : Type} [Add α] [Mul α] [Div α] [Neg α] [OfScientific α]
    (N : NumberSystem α) (value orientation : JSString) : α :=
  let degrees := parseInt N (substring value 0 (some (indexOf value 46 - 2)))
  let minutes := parseFloat N (substring value (indexOf value 46 - 2) none)
  let decimal := degrees + minutes / (60.0 : α)
  if orientation = codeUnits "S" ∨ orientation = codeUnits "W"
  then decimal * -(1.0 : α) else decimal

/-! ## Tracker state and collaborators -/

/-- Outcome of a promise. -/
inductive Outcome (β : Type) where
  | resolved (value : β)
  | rejected (error : String)

/-- Field `status` of a configuration record. -/
structure ConfigStatus where
  finished : Bool
  datetime : Int
  deriving DecidableEq, Repr

/-- Configuration record, as returned by `config.data()`. -/
structure Config where
  name : String
  status : ConfigStatus
  fields : Obj
  deriving DecidableEq, Repr

/-- The plain object held in `_configurations`: its own properties, and its prototype
when a configuration record was installed as prototype (`none` is `Object.prototype`). -/
structure ConfigurationSet where
  proto : Option Config
  own : Dict Config

/-- The object literal `{}`. -/
def ConfigurationSet.empty : ConfigurationSet :=
  { proto := none, own := [] }

/-- Assignment `configurations[name] = config` on the plain object.  The name
`"__proto__"` reaches the accessor of `Object.prototype`, which installs the record as
prototype and creates no own property; every other name creates or overwrites an own
property (the records on the prototype chain hold writable data properties only). -/
def ConfigurationSet.assign (o : ConfigurationSet) (name : String) (config : Config) :
    ConfigurationSet :=
  if name = "__proto__" then { o with proto := some config }
  else { o with own := Dict.assign o.own name config }

/-- Instance state of the class `Tracker`; `_data` is `none` until `loadData` is called. -/
structure Tracker where
  _id : String
  _data : Option Obj
  _configurations : ConfigurationSet
  _pending_configs : List Config

/-- Method `get(value)`: `this._data[value]`; `none` stands for the `TypeError` raised
when `_data` was never loaded. -/
def Tracker.get (self : Tracker) (value : String) : Option JSVal :=
  self._data.map (fun data => Obj.get data value)

/-- Method `getConfigurationsCount()`. -/
def Tracker.getConfigurationsCount (self : Tracker) : Nat :=
  (Dict.keys self._configurations.own).length

/-- Severity of a log line. -/
inductive Level where
  | debug
  | info
  | warn
  | error
  deriving DecidableEq, Repr

/-- Conversions to text that belong to the JavaScript engine: `Number::toString` on the
finite Numbers (decimal below `10^21`, exponent notation from there on) and
`Date.prototype.toString`. -/
structure Engine where
  numberToString : ℚ → String
  dateToString : LocalTime → String

/-- Conversion of a value to a string (`toString()`, string concatenation); the text of a
finite Number and of a `Date` is the one the engine gives. -/
def JSVal.toStringJS (engine : Engine) : JSVal → String
  | .undefined => "undefined"
  | .null => "null"
  | .bool b => if b then "true" else "false"
  | .num q => engine.numberToString q
  | .nan => "NaN"
  | .infinity negative => if negative then "-Infinity" else "Infinity"
  | .str s => s
  | .date t => engine.dateToString t

/-- Text of the `TypeError` raised by a property read on `undefined`. -/
def typeError : String := "TypeError: Cannot read properties of undefined"

/-! ## `loadConfigFromDB` -/

/-- Body of the `result.forEach` callback (lines 153-164). -/
def loadConfig_each (self : Tracker) (config : Config) : Tracker :=
  let self1 : Tracker :=
    { self with _configurations := self._configurations.assign config.name config }
  if !config.status.finished then
    { self1 with _pending_configs := self1._pending_configs ++ [config] }
  else self1

/-- Method `checkConfigurations()` (lines 181-184): empty in the base class. -/
def checkConfigurations (self : Tracker) : Tracker := self

/-- Method `loadConfigFromDB()` (lines 135-179), given the outcome of the query on
`Tracker/<id>/Configurations` ordered by `status.datetime` descending: the state of the
tracker afterwards and the log lines written. -/
def loadConfigFromDB (engine : Engine) (self : Tracker)
    (get : Outcome (List Config)) : Tracker × List (Level × String) :=
  match get with
  | .rejected error => (self, [(Level.error, "Error getting tracker configuration: " ++ error)])
  | .resolved result =>
    let self1 : Tracker :=
      { self with _configurations := ConfigurationSet.empty, _pending_configs := [] }
    let self2 := result.foldl loadConfig_each self1
    match self2.get "name" with
    | none => (self2, [(Level.error, "Error getting tracker configuration: " ++ typeError)])
    | some name =>
      (checkConfigurations self2,
        [(Level.debug, name.toStringJS engine ++ " configs loaded (" ++
          toString self2.getConfigurationsCount ++ " total / " ++
          toString self2._pending_configs.length ++ " pending)")])

/-! ## `insert_coordinates` -/

/-- Property `lastCoordinate` of `tracker_params`: its `type` and its other properties. -/
structure LastCoordinate where
  type : JSVal
  fields : Obj

/-- Argument `tracker_params`: the tracker-state update. -/
structure TrackerParams where
  lastCoordinate : LastCoordinate
  fields : Obj

/-- Argument `coordinate_params`: the coordinate report, with its `position` and its
other properties (`datetime`, `id`, `type`, telemetry, ...). -/
structure CoordinateParams (α : Type) where
  position : Coordinates α
  fields : Obj

/-- Element of `querySnapshot.docs`: document id and `data()`. -/
structure QueryDocumentSnapshot (α : Type) where
  id : String
  data : CoordinateParams α

/-- Element of the list returned by the geocoder. -/
structure GeocoderResult where
  formattedAddress : JSVal

/-- Property `content` of the notification parameters. -/
inductive NotificationContent (α : Type) where
  | text (s : String)
  | value (v : JSVal)
  | coordinates (position : Coordinates α)

/-- Notification parameters (`title`, `content`, `coordinates`); the wall-clock stamp
`datetime` is not recorded. -/
structure NotificationParams (α : Type) where
  title : String
  content : NotificationContent α
  coordinates : Coordinates α

/-- External effects of the pipeline on its collaborators. -/
inductive Effect (α : Type) where
  | trackerSet (id : String) (tracker_params : TrackerParams)
  | coordinatesQuery (id : String) (datetime : JSVal)
  | reverse (lat lon : α)
  | coordinateSet (id coordinate_id : String) (data : CoordinateParams α)
  | coordinateUpdate (id doc_id : String) (data : CoordinateParams α)
  | sendNotification (id topic : String) (params : NotificationParams α) (override_params : Obj)
  | log (level : Level) (message : String)

/-- Behaviour of the collaborators during one call of `insert_coordinates`.
`sendNotificationThrows n` is the error thrown by the call of `sendNotification` made
after `n` earlier ones, `none` when that call returns. -/
structure World (α : Type) where
  trackerSet : Outcome Unit
  coordinatesQuery : Outcome (List (QueryDocumentSnapshot α))
  reverse : Outcome (List GeocoderResult)
  sendNotificationThrows : Nat → Option String
  now : LocalTime
  engine : Engine

/-- Result of one call: the effects in program order, and whether a promise was left
rejected with no handler. -/
structure Run (α : Type) where
  effects : List (Effect α)
  unhandledRejection : Bool

/-- Effects performed before the continuation `r`. -/
def Run.after {α : Type} (pre : List (Effect α)) (r : Run α) : Run α :=
  { r with effects := pre ++ r.effects }

/-- Fallback address written when geocoding fails (line 284). -/
def addressUnavailable : String := "Endereço próximo à coordenada não disponível."

/-- Caveat shown for GSM coordinates. -/
def gpsUnavailable : String := "(Sinal de GPS indisponível)"

section Pipeline

variable {α : Type}

/-- Handler `.catch` of the geocoding promise (lines 281-302); `calls` counts the earlier
calls of `sendNotification`.  An error thrown here rejects a promise nobody observes. -/
def reverse_catch (self : Tracker) (gsm_coordinate : Bool) (coordinate_id : String)
    (coordinate_params : CoordinateParams α) (notification : Obj) (w : World α)
    (calls : Nat) (error : String) : Run α :=
  let coordinate_params1 : CoordinateParams α :=
    { coordinate_params with
      fields := Dict.assign coordinate_params.fields "address" (JSVal.str addressUnavailable) }
  let effects : List (Effect α) :=
    [ Effect.coordinateSet self._id coordinate_id coordinate_params1,
      Effect.sendNotification self._id "Notify_Movement"
        { title := "Alerta de movimentação",
          content := if gsm_coordinate then NotificationContent.text gpsUnavailable
            else NotificationContent.coordinates coordinate_params1.position,
          coordinates := coordinate_params1.position } notification ]
  match w.sendNotificationThrows calls with
  | some _ => { effects := effects, unhandledRejection := true }
  | none =>
    { effects := effects ++ [Effect.log Level.warn
        ("Parsed location message from: " ++ self._id ++ " - Geocoding failed: " ++ error)],
      unhandledRejection := false }

/-- Handler `.then` of the geocoding promise (lines 259-280); what it throws is caught by
`reverse_catch`. -/
def reverse_then (self : Tracker) (gsm_coordinate : Bool) (coordinate_id : String)
    (coordinate_params : CoordinateParams α) (notification : Obj) (w : World α)
    (result : List GeocoderResult) : Run α :=
  match result with
  | [] =>
    reverse_catch self gsm_coordinate coordinate_id coordinate_params notification w 0 typeError
  | first :: _ =>
    let coordinate_params1 : CoordinateParams α :=
      { coordinate_params with
        fields := Dict.assign coordinate_params.fields "address" first.formattedAddress }
    let effects : List (Effect α) :=
      [ Effect.coordinateSet self._id coordinate_id coordinate_params1,
        Effect.sendNotification self._id "Notify_Movement"
          { title := "Alerta de movimentação",
            content := if gsm_coordinate then NotificationContent.text gpsUnavailable
              else NotificationContent.value (Obj.get coordinate_params1.fields "address"),
            coordinates := coordinate_params1.position } notification ]
    match w.sendNotificationThrows 0 with
    | some error =>
      Run.after effects
        (reverse_catch self gsm_coordinate coordinate_id coordinate_params1 notification w 1 error)
    | none =>
      { effects := effects ++ [Effect.log Level.info
          ("Successfully parsed location message from: " ++ self._id ++ " - Coordinate inserted")],
        unhandledRejection := false }

/-- Variable `coordinate_id` (line 249): `coordinate_params.id.toString()` when the id is
truthy, else `moment(new Date()).format(...)` on the clock of the process. -/
def coordinate_id (coordinate_params : CoordinateParams α) (w : World α) : String :=
  if (Obj.get coordinate_params.fields "id").truthy
  then (Obj.get coordinate_params.fields "id").toStringJS w.engine
  else moment_format w.now "YYYY_MM_DD_hh_mm_ss_SSS"

/-- Movement branch (lines 247-303). -/
def movement (self : Tracker) (gsm_coordinate : Bool)
    (coordinate_params : CoordinateParams α) (notification : Obj) (w : World α) : Run α :=
  Run.after
    [ Effect.log Level.debug "Requesting reverse geocoding",
      Effect.reverse coordinate_params.position.latitude coordinate_params.position.longitude ]
    (match w.reverse with
     | .resolved result =>
       reverse_then self gsm_coordinate (coordinate_id coordinate_params w) coordinate_params
         notification w result
     | .rejected error =>
       reverse_catch self gsm_coordinate (coordinate_id coordinate_params w) coordinate_params
         notification w 0 error)

/-- Stationary branch (lines 305-328); what it throws is caught by the handler of lines
330-334. -/
def stationary (self : Tracker) (gsm_coordinate : Bool)
    (coordinate_params : CoordinateParams α) (notification : Obj) (w : World α)
    (lastCoordinate : QueryDocumentSnapshot α) : Run α :=
  let coordinate_params1 : CoordinateParams α :=
    { coordinate_params with
      fields := Dict.assign coordinate_params.fields "lastDatetime"
        (Obj.get coordinate_params.fields "datetime") }
  let coordinate_params2 : CoordinateParams α :=
    { coordinate_params1 with fields := Dict.remove coordinate_params1.fields "datetime" }
  let effects : List (Effect α) :=
    [ Effect.coordinateUpdate self._id lastCoordinate.id coordinate_params2,
      Effect.sendNotification self._id "Notify_Stopped"
        { title := "Alerta de permanência",
          content := if gsm_coordinate then NotificationContent.text gpsUnavailable
            else NotificationContent.text "Rastreador permanece na mesma posição.",
          coordinates := coordinate_params2.position } notification ]
  let failed : String → Run α := fun error =>
    { effects := effects ++
        [Effect.log Level.error ("Error inserting coordinates on DB: " ++ error)],
      unhandledRejection := false }
  match w.sendNotificationThrows 0 with
  | some error => failed error
  | none =>
    match self.get "name" with
    | none => failed typeError
    | some name =>
      { effects := effects ++ [Effect.log Level.info
          ("Successfully parsed location message from: " ++ name.toStringJS w.engine ++
            " - Coordinate updated")],
        unhandledRejection := false }

variable [Add α] [Sub α] [Mul α] [Div α] [OfScientific α] [LT α]
  [DecidableRel (fun a b : α => a < b)]

/-- The condition of line 246, `lastCoordinate == null || getDistance(...) > (gsm_coordinate
? 2000 : 50)`, with `lastCoordinate = querySnapshot.docs[0]`. -/
def movementCondition (Math : MathObj α) (gsm_coordinate : Bool)
    (coordinate_params : CoordinateParams α)
    (lastCoordinate : Option (QueryDocumentSnapshot α)) : Bool :=
  match lastCoordinate with
  | none => true
  | some doc =>
    decide ((if gsm_coordinate then (2000.0 : α) else (50.0 : α)) <
      getDistance Math coordinate_params.position doc.data.position)

/-- Handler `.then` of the last-coordinate query (lines 237-329). -/
def query_then (Math : MathObj α) (self : Tracker) (tracker_params : TrackerParams)
    (coordinate_params : CoordinateParams α) (notification : Obj) (w : World α)
    (docs : List (QueryDocumentSnapshot α)) : Run α :=
  let gsm_coordinate := tracker_params.lastCoordinate.type.looseEqStr "GSM"
  match docs.head? with
  | none => movement self gsm_coordinate coordinate_params notification w
  | some lastCoordinate =>
    if movementCondition Math gsm_coordinate coordinate_params (some lastCoordinate)
    then movement self gsm_coordinate coordinate_params notification w
    else stationary self gsm_coordinate coordinate_params notification w lastCoordinate

/-- Method `insert_coordinates(tracker_params, coordinate_params, notification)`
(lines 218-341). -/
def insert_coordinates (Math : MathObj α) (self : Tracker) (tracker_params : TrackerParams)
    (coordinate_params : CoordinateParams α) (notification : Obj) (w : World α) : Run α :=
  Run.after [Effect.trackerSet self._id tracker_params]
    (match w.trackerSet with
     | .rejected error =>
       { effects := [Effect.log Level.error ("Error updating tracker on DB: " ++ error)],
         unhandledRejection := false }
     | .resolved _ =>
       Run.after
         [Effect.coordinatesQuery self._id (Obj.get coordinate_params.fields "datetime")]
         (match w.coordinatesQuery with
          | .rejected error =>
            { effects :=
                [Effect.log Level.error ("Error inserting coordinates on DB: " ++ error)],
              unhandledRejection := false }
          | .resolved docs =>
            query_then Math self tracker_params coordinate_params notification w docs))

end Pipeline

/-! ## Observations on a run -/

section Observations

variable {α : Type}

/-- Topics of the calls of `sendNotification`, in order. -/
def Run.topics (r : Run α) : List String :=
  r.effects.filterMap (fun e =>
    match e with
    | Effect.sendNotification _ topic _ _ => some topic
    | _ => none)

/-- Calls of `set()` on a coordinate document: key and data, in order. -/
def Run.sets (r : Run α) : List (String × CoordinateParams α) :=
  r.effects.filterMap (fun e =>
    match e with
    | Effect.coordinateSet _ coordinate_id data => some (coordinate_id, data)
    | _ => none)

/-- Calls of `update()` on a coordinate document: document id and payload, in order. -/
def Run.updates (r : Run α) : List (String × CoordinateParams α) :=
  r.effects.filterMap (fun e =>
    match e with
    | Effect.coordinateUpdate _ doc_id data => some (doc_id, data)
    | _ => none)

/-- Number of geocoder calls. -/
def Run.reverseCalls (r : Run α) : Nat :=
  (r.effects.filter (fun e =>
    match e with
    | Effect.reverse _ _ => true
    | _ => false)).length

/-- Number of last-coordinate queries. -/
def Run.queries (r : Run α) : Nat :=
  (r.effects.filter (fun e =>
    match e with
    | Effect.coordinatesQuery _ _ => true
    | _ => false)).length

/-- The movement branch was entered: the geocoder was asked for an address. -/
def Run.movementTaken (r : Run α) : Bool :=
  decide (r.reverseCalls ≠ 0)

/-- The stationary branch was entered: an existing coordinate document was updated. -/
def Run.stationaryTaken (r : Run α) : Bool :=
  !r.updates.isEmpty

end Observations

/-! ## Instants and the statements of the specification -/

/-- Order of two instants of the same time zone, read on their local times. -/
def LocalTime.before (a b : LocalTime) : Bool :=
  decide ([a.year, a.month, a.date, a.hours, a.minutes, a.seconds, a.milliseconds] <
    [b.year, b.month, b.date, b.hours, b.minutes, b.seconds, b.milliseconds])

/-- Specification: the integer written by a string of decimal digits, most significant
digit first. -/
def writtenInteger (ds : JSString) : ℕ :=
  Nat.ofDigits 10 (ds.reverse.map decimalDigitValue)

/-- Specification: the decimal number written by the digits `ip`, a point and the
digits `fp`. -/
def writtenDecimal (ip fp : JSString) : ℚ :=
  (writtenInteger ip : ℚ) + (writtenInteger fp : ℚ) / 10 ^ fp.length

/-- Number expressions: the carrier that records which Numbers the code builds and which
operations it performs on them, for any arithmetic. -/
inductive NumExpr where
  | number (x : ℚ)
  | nan
  | infinity
  | add (a b : NumExpr)
  | mul (a b : NumExpr)
  | div (a b : NumExpr)
  | neg (a : NumExpr)
  deriving DecidableEq

instance : Add NumExpr := ⟨NumExpr.add⟩

instance : Mul NumExpr := ⟨NumExpr.mul⟩

instance : Div NumExpr := ⟨NumExpr.div⟩

instance : Neg NumExpr := ⟨NumExpr.neg⟩

instance : OfScientific NumExpr :=
  ⟨fun mantissa exponentSign decimalExponent =>
    NumExpr.number (OfScientific.ofScientific mantissa exponentSign decimalExponent)⟩

/-- The Numbers of the carrier `NumExpr`. -/
def symbolicNumbers : NumberSystem NumExpr :=
  { ofMathematical := NumExpr.number, nan := NumExpr.nan, infinity := NumExpr.infinity }

/-- The report with its `address` property assigned. -/
def withAddress {α : Type} (coordinate_params : CoordinateParams α) (address : JSVal) :
    CoordinateParams α :=
  { coordinate_params with fields := Dict.assign coordinate_params.fields "address" address }

/-- Address written first by the movement branch: the `formattedAddress` of the first
geocoder result, the fallback string when geocoding fails or returns no result. -/
def firstAddress (reverse : Outcome (List GeocoderResult)) : JSVal :=
  match reverse with
  | .resolved (first :: _) => first.formattedAddress
  | _ => JSVal.str addressUnavailable

/-- The report as the stationary branch sends it to `update()`: `lastDatetime` assigned
from `datetime`, then `datetime` deleted. -/
def stationaryPayload {α : Type} (coordinate_params : CoordinateParams α) :
    CoordinateParams α :=
  { coordinate_params with
    fields := Dict.remove (Dict.assign coordinate_params.fields "lastDatetime"
      (Obj.get coordinate_params.fields "datetime")) "datetime" }

/-- The movement test of the specification: no prior coordinate, or a distance to the
prior coordinate above the threshold, 2000 when `tracker_params.lastCoordinate.type` is
`"GSM"` and 50 otherwise. -/
def MovementDeclared {α : Type} [Add α] [Sub α] [Mul α] [Div α] [OfScientific α] [LT α]
    (Math : MathObj α) (tracker_params : TrackerParams)
    (coordinate_params : CoordinateParams α) (docs : List (QueryDocumentSnapshot α)) : Prop :=
  docs.head? = none ∨
  ∃ lastCoordinate, docs.head? = some lastCoordinate ∧
    (if tracker_params.lastCoordinate.type = JSVal.str "GSM" then (2000.0 : α) else (50.0 : α))
      < getDistance Math coordinate_params.position lastCoordinate.data.position

/-! ## Example inputs -/

/-- A `Math` object over the rationals under which `getDistance` is the constant `d`. -/
def constantDistance (d : ℚ) : MathObj ℚ :=
  { cos := fun _ => 1, asin := fun _ => d / 12742000, sqrt := fun x => x }

/-- A tracker whose data was loaded. -/
def exampleTracker : Tracker :=
  { _id := "tracker-1", _data := some [("name", JSVal.str "Car")],
    _configurations := ConfigurationSet.empty, _pending_configs := [] }

/-- A tracker-state update whose last coordinate has the given type. -/
def exampleTrackerParams (type : String) : TrackerParams :=
  { lastCoordinate := { type := JSVal.str type, fields := [] }, fields := [] }

/-- The instant 2018-01-01 10:00:00.000. -/
def exampleTime : LocalTime := ⟨2018, 1, 1, 10, 0, 0, 0⟩

/-- A GPS report without an id, dated `exampleTime`. -/
def exampleReport : CoordinateParams ℚ :=
  { position := ⟨10, 20⟩,
    fields := [("datetime", JSVal.date exampleTime), ("type", JSVal.str "GPS")] }

/-- A stored coordinate preceding `exampleReport`. -/
def exampleLast : QueryDocumentSnapshot ℚ :=
  { id := "2018_01_01_09_00_00_000",
    data :=
      { position := ⟨10, 20⟩,
        fields := [("datetime", JSVal.date ⟨2018, 1, 1, 9, 0, 0, 0⟩)] } }

/-- An engine for the examples, none of which converts a Number or a `Date` to text. -/
def exampleEngine : Engine :=
  { numberToString := fun _ => "0", dateToString := fun _ => "Mon Jan 01 2018" }

/-- A world in which the tracker write succeeds, the query returns `docs`, the geocoder
has the outcome `reverse`, `sendNotification` returns and the clock reads
2018-01-01 10:00:05.250. -/
def exampleWorld (docs : List (QueryDocumentSnapshot ℚ))
    (reverse : Outcome (List GeocoderResult)) : World ℚ :=
  { trackerSet := Outcome.resolved (),
    coordinatesQuery := Outcome.resolved docs,
    reverse := reverse,
    sendNotificationThrows := fun _ => none,
    now := ⟨2018, 1, 1, 10, 0, 5, 250⟩,
    engine := exampleEngine }

/-- A world in which the tracker write is rejected. -/
def failedWriteWorld : World ℚ :=
  { exampleWorld [exampleLast] (Outcome.resolved []) with
    trackerSet := Outcome.rejected "UNAVAILABLE" }

/-- A world in which the tracker write succeeds and the last-coordinate query is rejected. -/
def failedQueryWorld : World ℚ :=
  { exampleWorld [exampleLast] (Outcome.resolved []) with
    coordinatesQuery := Outcome.rejected "UNAVAILABLE" }

/-- The world `exampleWorld docs reverse` in which the first call of `sendNotification`
throws. -/
def throwingNotifierWorld (docs : List (QueryDocumentSnapshot ℚ))
    (reverse : Outcome (List GeocoderResult)) : World ℚ :=
  { exampleWorld docs reverse with
    sendNotificationThrows := fun n => if n = 0 then some "Error: messaging" else none }

/-- The world of a first report processed when the clock reads `now`. -/
def firstReportWorld (now : LocalTime) : World ℚ :=
  { exampleWorld [] (Outcome.resolved []) with now := now }

/-! ## Lemmas on dictionaries -/

section DictLemmas

variable {β : Type}

theorem Dict.find_assign_self (o : Dict β) (key : String) (v : β) :
    Dict.find (Dict.assign o key v) key = some v := by
  induction o with
  | nil => simp [Dict.assign, Dict.find]
  | cons e rest ih =>
    obtain ⟨k, x⟩ := e
    by_cases h : k = key
    · simp [Dict.assign, Dict.find, h]
    · simp [Dict.assign, Dict.find, h, ih]

theorem Dict.find_assign_of_ne (o : Dict β) (key other : String) (v : β) (h : other ≠ key) :
    Dict.find (Dict.assign o key v) other = Dict.find o other := by
  induction o with
  | nil =>
    have h2 : ¬ key = other := fun e => h e.symm
    simp [Dict.assign, Dict.find, h2]
  | cons e rest ih =>
    obtain ⟨k, x⟩ := e
    by_cases hk : k = key
    · have h2 : ¬ key = other := fun e => h e.symm
      simp [Dict.assign, Dict.find, hk, h2]
    · by_cases ho : k = other
      · subst ho
        simp [Dict.assign, Dict.find, hk]
      · simp [Dict.assign, Dict.find, hk, ho, ih]

theorem Dict.find_remove_self (o : Dict β) (key : String) :
    Dict.find (Dict.remove o key) key = none := by
  induction o with
  | nil => simp [Dict.remove, Dict.find]
  | cons e rest ih =>
    obtain ⟨k, x⟩ := e
    by_cases h : k = key
    · simpa [Dict.remove, List.filter_cons, h] using ih
    · simpa [Dict.remove, List.filter_cons, h, Dict.find] using ih

theorem Dict.find_remove_of_ne (o : Dict β) (key other : String) (h : other ≠ key) :
    Dict.find (Dict.remove o key) other = Dict.find o other := by
  induction o with
  | nil => simp [Dict.remove, Dict.find]
  | cons e rest ih =>
    obtain ⟨k, x⟩ := e
    by_cases hk : k = key
    · have h2 : ¬ key = other := fun e => h e.symm
      simpa [Dict.remove, List.filter_cons, hk, Dict.find, h2] using ih
    · by_cases ho : k = other
      · subst ho
        simp [Dict.remove, List.filter_cons, hk, Dict.find]
      · simpa [Dict.remove, List.filter_cons, hk, Dict.find, ho] using ih

theorem Dict.mem_keys_iff_find (o : Dict β) (key : String) :
    key ∈ Dict.keys o ↔ (Dict.find o key).isSome = true := by
  induction o with
  | nil => simp [Dict.keys, Dict.find]
  | cons e rest ih =>
    obtain ⟨k, x⟩ := e
    by_cases h : k = key
    · simp [Dict.keys, Dict.find, h]
    · have h2 : ¬ key = k := fun e => h e.symm
      simpa [Dict.keys, Dict.find, h, h2] using ih

theorem Dict.keys_assign_nodup (o : Dict β) (key : String) (v : β)
    (h : (Dict.keys o).Nodup) : (Dict.keys (Dict.assign o key v)).Nodup := by
  induction o with
  | nil => simp [Dict.assign, Dict.keys]
  | cons e rest ih =>
    obtain ⟨k, x⟩ := e
    have hk : k ∉ Dict.keys rest := (List.nodup_cons.mp h).1
    have hr : (Dict.keys rest).Nodup := (List.nodup_cons.mp h).2
    by_cases hkk : k = key
    · simpa [Dict.assign, hkk, Dict.keys] using h
    · simp only [Dict.assign, hkk, if_false]
      refine List.nodup_cons.mpr ⟨?_, ih hr⟩
      intro hmem
      have h1 := (Dict.mem_keys_iff_find (Dict.assign rest key v) k).mp hmem
      rw [Dict.find_assign_of_ne rest key k v hkk] at h1
      exact hk ((Dict.mem_keys_iff_find rest k).mpr h1)

end DictLemmas

/-! ## Lemmas on the decoders -/

theorem isDecimalDigit_bounds {c : Nat} (h : isDecimalDigit c = true) :
    48 ≤ c ∧ c ≤ 57 := by
  simpa [isDecimalDigit] using h

theorem isStrWhiteSpace_of_digit {c : Nat} (h : isDecimalDigit c = true) :
    isStrWhiteSpace c = false := by
  have hb := isDecimalDigit_bounds h
  simp only [isStrWhiteSpace, decide_eq_false_iff_not, List.mem_cons, List.mem_singleton,
    List.not_mem_nil, or_false]
  omega

theorem decimalValue_snoc (l : JSString) (c : Nat) :
    decimalValue (l ++ [c]) = 10 * decimalValue l + decimalDigitValue c := by
  simp [decimalValue, List.foldl_append]

theorem decimalValue_eq_writtenInteger (ds : JSString) :
    decimalValue ds = writtenInteger ds := by
  induction ds using List.reverseRecOn with
  | nil => simp [decimalValue, writtenInteger]
  | append_singleton l c ih =>
    rw [decimalValue_snoc, ih]
    simp [writtenInteger, Nat.ofDigits_cons]
    ring

theorem splitSign_of_digit (c : Nat) (r : JSString) (h : isDecimalDigit c = true) :
    splitSign (c :: r) = (false, c :: r) := by
  have hb := isDecimalDigit_bounds h
  have h1 : c ≠ 45 := by omega
  have h2 : c ≠ 43 := by omega
  simp [splitSign, h1, h2]

theorem hasHexPrefix_of_digits (zs : JSString) (h : ∀ c ∈ zs, isDecimalDigit c = true) :
    hasHexPrefix zs = false := by
  match zs, h with
  | [], _ => rfl
  | [_], _ => rfl
  | c0 :: c1 :: r, h =>
    have hb := isDecimalDigit_bounds (h c1 (by simp))
    have h1 : c1 ≠ 120 := by omega
    have h2 : c1 ≠ 88 := by omega
    simp [hasHexPrefix, h1, h2]

theorem take_ne_Infinity_of_digit (c : Nat) (r : JSString) (h : isDecimalDigit c = true) :
    (c :: r).take 8 ≠ codeUnits "Infinity" := by
  have hb := isDecimalDigit_bounds h
  have hI : codeUnits "Infinity" = [73, 110, 102, 105, 110, 105, 116, 121] := by decide
  rw [hI]
  intro e
  have := congrArg List.head? e
  simp at this
  omega

section DecoderLemmas

variable {α : Type} [Neg α]

theorem parseInt_of_digits (N : NumberSystem α) (zs : JSString) (hne : zs ≠ [])
    (h : ∀ c ∈ zs, isDecimalDigit c = true) :
    parseInt N zs = N.ofMathematical (decimalValue zs : ℚ) := by
  obtain ⟨c, r, rfl⟩ := List.exists_cons_of_ne_nil hne
  have hc : isDecimalDigit c = true := h c (by simp)
  have hws : List.dropWhile isStrWhiteSpace (c :: r) = c :: r := by
    simp [List.dropWhile, isStrWhiteSpace_of_digit hc]
  have htake : List.takeWhile isDecimalDigit (c :: r) = c :: r :=
    List.takeWhile_eq_self_iff.mpr h
  unfold parseInt
  simp only [hws, splitSign_of_digit c r hc, hasHexPrefix_of_digits (c :: r) h, htake]
  simp [signedNumber]

theorem parseFloat_of_digits (N : NumberSystem α) (ip fp : JSString) (hne : ip ≠ [])
    (hi : ∀ c ∈ ip, isDecimalDigit c = true) (hf : ∀ c ∈ fp, isDecimalDigit c = true) :
    parseFloat N (ip ++ 46 :: fp) =
      N.ofMathematical ((decimalValue ip : ℚ) + (decimalValue fp : ℚ) / 10 ^ fp.length) := by
  obtain ⟨c, r, rfl⟩ := List.exists_cons_of_ne_nil hne
  have hc : isDecimalDigit c = true := hi c (by simp)
  have hdot : isDecimalDigit 46 = false := by decide
  have hws : List.dropWhile isStrWhiteSpace (c :: r ++ 46 :: fp) = c :: r ++ 46 :: fp := by
    simp [List.dropWhile, isStrWhiteSpace_of_digit hc]
  have hsign : splitSign (c :: r ++ 46 :: fp) = (false, c :: r ++ 46 :: fp) :=
    splitSign_of_digit c (r ++ 46 :: fp) hc
  have htake : List.takeWhile isDecimalDigit (c :: r ++ 46 :: fp) = c :: r := by
    rw [List.takeWhile_append_of_pos hi]
    simp [List.takeWhile, hdot]
  have hdrop : List.dropWhile isDecimalDigit (c :: r ++ 46 :: fp) = 46 :: fp := by
    rw [List.dropWhile_append_of_pos hi]
    simp [List.dropWhile, hdot]
  have htake2 : List.takeWhile isDecimalDigit fp = fp := List.takeWhile_eq_self_iff.mpr hf
  have hdrop2 : List.dropWhile isDecimalDigit fp = [] := List.dropWhile_eq_nil_iff.mpr hf
  have hinf : (c :: r ++ 46 :: fp).take 8 ≠ codeUnits "Infinity" :=
    take_ne_Infinity_of_digit c (r ++ 46 :: fp) hc
  unfold parseFloat
  simp only [hws, hsign, htake, hdrop, htake2, hdrop2]
  rw [if_neg hinf]
  simp [exponentPart, signedNumber]

end DecoderLemmas

theorem indexOf_dot (ds fs : JSString) (h : ∀ c ∈ ds, isDecimalDigit c = true) :
    indexOf (ds ++ 46 :: fs) 46 = (ds.length : Int) := by
  have hnot : 46 ∉ ds := by
    intro hmem
    have := h _ hmem
    simp [isDecimalDigit] at this
  have hidx : List.indexOf 46 (ds ++ 46 :: fs) = ds.length := by
    rw [List.indexOf_append_of_not_mem hnot]
    simp
  unfold indexOf
  rw [hidx]
  simp

theorem substring_degrees (ds fs : JSString) (hlen : 2 ≤ ds.length) :
    substring (ds ++ 46 :: fs) 0 (some ((ds.length : Int) - 2)) = ds.take (ds.length - 2) := by
  have h1 : (min (max ((ds.length : Int) - 2) 0) (((ds ++ 46 :: fs).length : ℕ) : Int)).toNat
      = ds.length - 2 := by
    simp only [List.length_append, List.length_cons]
    omega
  have h0 : (min (max (0 : Int) 0) (((ds ++ 46 :: fs).length : ℕ) : Int)).toNat = 0 := by
    simp
  unfold substring
  simp only [h1, h0]
  simp only [Nat.zero_min, Nat.zero_max, List.drop_zero, Nat.sub_zero]
  exact List.take_append_of_le_length (Nat.sub_le _ _)

theorem substring_minutes (ds fs : JSString) (hlen : 2 ≤ ds.length) :
    substring (ds ++ 46 :: fs) ((ds.length : Int) - 2) none
      = ds.drop (ds.length - 2) ++ 46 :: fs := by
  have h1 : (min (max ((ds.length : Int) - 2) 0) (((ds ++ 46 :: fs).length : ℕ) : Int)).toNat
      = ds.length - 2 := by
    simp only [List.length_append, List.length_cons]
    omega
  have hle : ds.length - 2 ≤ (ds ++ 46 :: fs).length := by
    simp only [List.length_append, List.length_cons]
    omega
  unfold substring
  simp only [h1]
  rw [Nat.min_eq_left hle, Nat.max_eq_right hle, List.take_of_length_le (by simp),
    List.drop_append_of_le_length (Nat.sub_le _ _)]

/-! ## Lemmas on `loadConfigFromDB` -/

theorem loadConfig_each_configurations (s : Tracker) (c : Config) :
    (loadConfig_each s c)._configurations = s._configurations.assign c.name c := by
  unfold loadConfig_each
  split <;> rfl

theorem loadConfig_each_pending (s : Tracker) (c : Config) :
    (loadConfig_each s c)._pending_configs =
      s._pending_configs ++ (if c.status.finished = false then [c] else []) := by
  unfold loadConfig_each
  cases h : c.status.finished <;> simp

theorem loadConfig_foldl_snoc (s : Tracker) (rs : List Config) (c : Config) :
    (rs ++ [c]).foldl loadConfig_each s = loadConfig_each (rs.foldl loadConfig_each s) c := by
  simp [List.foldl_append]

theorem loadConfig_foldl_pending (s : Tracker) (rs : List Config) :
    (rs.foldl loadConfig_each s)._pending_configs =
      s._pending_configs ++ rs.filter (fun c => decide (c.status.finished = false)) := by
  induction rs using List.reverseRecOn with
  | nil => simp
  | append_singleton l c ih =>
    rw [loadConfig_foldl_snoc, loadConfig_each_pending, ih, List.filter_append]
    by_cases h : c.status.finished = false <;> simp [h]

theorem loadConfig_foldl_find (s : Tracker) (rs : List Config) (name : String)
    (hs : s._configurations.own = []) (hname : name ≠ "__proto__") :
    Dict.find (rs.foldl loadConfig_each s)._configurations.own name =
      (rs.filter (fun c => decide (c.name = name))).getLast? := by
  induction rs using List.reverseRecOn with
  | nil => simp [hs, Dict.find]
  | append_singleton l c ih =>
    rw [loadConfig_foldl_snoc, loadConfig_each_configurations, List.filter_append]
    by_cases h : c.name = name
    · have hp : ¬ c.name = "__proto__" := fun e => hname (h ▸ e)
      subst h
      simp [ConfigurationSet.assign, hp, Dict.find_assign_self]
    · have h2 : name ≠ c.name := fun e => h e.symm
      by_cases hp : c.name = "__proto__"
      · simp only [ConfigurationSet.assign, hp, if_true]
        rw [ih]
        simp [h]
      · simp only [ConfigurationSet.assign, hp, if_false]
        rw [Dict.find_assign_of_ne _ _ _ _ h2, ih]
        simp [h]

theorem loadConfig_foldl_no_proto_key (s : Tracker) (rs : List Config)
    (hs : s._configurations.own = []) :
    Dict.find (rs.foldl loadConfig_each s)._configurations.own "__proto__" = none := by
  induction rs using List.reverseRecOn with
  | nil => simp [hs, Dict.find]
  | append_singleton l c ih =>
    rw [loadConfig_foldl_snoc, loadConfig_each_configurations]
    by_cases hp : c.name = "__proto__"
    · simp [ConfigurationSet.assign, hp, ih]
    · have h2 : "__proto__" ≠ c.name := fun e => hp e.symm
      simp only [ConfigurationSet.assign, hp, if_false]
      rw [Dict.find_assign_of_ne _ _ _ _ h2, ih]

theorem loadConfig_foldl_nodup (s : Tracker) (rs : List Config)
    (hs : s._configurations.own = []) :
    (Dict.keys (rs.foldl loadConfig_each s)._configurations.own).Nodup := by
  induction rs using List.reverseRecOn with
  | nil => simp [hs, Dict.keys]
  | append_singleton l c ih =>
    rw [loadConfig_foldl_snoc, loadConfig_each_configurations]
    by_cases hp : c.name = "__proto__"
    · simpa [ConfigurationSet.assign, hp] using ih
    · simp only [ConfigurationSet.assign, hp, if_false]
      exact Dict.keys_assign_nodup _ _ _ ih

theorem loadConfigFromDB_resolved (engine : Engine) (self : Tracker)
    (rs : List Config) :
    (loadConfigFromDB engine self (Outcome.resolved rs)).1 =
      rs.foldl loadConfig_each
        { self with _configurations := ConfigurationSet.empty, _pending_configs := [] } := by
  unfold loadConfigFromDB
  simp only
  split <;> rfl

/-! ## Lemmas on `insert_coordinates` -/

section PipelineLemmas

variable {α : Type}

theorem looseEqStr_iff (v : JSVal) (s : String) :
    v.looseEqStr s = true ↔ v = JSVal.str s := by
  cases v <;> simp [JSVal.looseEqStr]

theorem withAddress_twice (cp : CoordinateParams α) (a b : JSVal) :
    withAddress (withAddress cp a) b = withAddress cp b := by
  have h : ∀ (o : Obj), Dict.assign (Dict.assign o "address" a) "address" b
      = Dict.assign o "address" b := by
    intro o
    induction o with
    | nil => simp [Dict.assign]
    | cons e rest ih =>
      obtain ⟨k, x⟩ := e
      by_cases hk : k = "address"
      · simp [Dict.assign, hk]
      · simp [Dict.assign, hk, ih]
  simp [withAddress, h]

theorem movement_reverseCalls (self : Tracker) (gsm : Bool) (cp : CoordinateParams α)
    (notification : Obj) (w : World α) :
    (movement self gsm cp notification w).reverseCalls = 1 := by
  unfold movement
  cases w.reverse with
  | rejected error =>
    simp only [reverse_catch]
    cases w.sendNotificationThrows 0 <;> simp [Run.reverseCalls, Run.after]
  | resolved result =>
    cases result with
    | nil =>
      simp only [reverse_then, reverse_catch]
      cases w.sendNotificationThrows 0 <;> simp [Run.reverseCalls, Run.after]
    | cons first rest =>
      simp only [reverse_then, reverse_catch]
      cases w.sendNotificationThrows 0 <;> cases w.sendNotificationThrows 1 <;>
        simp [Run.reverseCalls, Run.after]

theorem movement_updates (self : Tracker) (gsm : Bool) (cp : CoordinateParams α)
    (notification : Obj) (w : World α) :
    (movement self gsm cp notification w).updates = [] := by
  unfold movement
  cases w.reverse with
  | rejected error =>
    simp only [reverse_catch]
    cases w.sendNotificationThrows 0 <;> simp [Run.updates, Run.after]
  | resolved result =>
    cases result with
    | nil =>
      simp only [reverse_then, reverse_catch]
      cases w.sendNotificationThrows 0 <;> simp [Run.updates, Run.after]
    | cons first rest =>
      simp only [reverse_then, reverse_catch]
      cases w.sendNotificationThrows 0 <;> cases w.sendNotificationThrows 1 <;>
        simp [Run.updates, Run.after]

theorem movement_sets (self : Tracker) (gsm : Bool) (cp : CoordinateParams α)
    (notification : Obj) (w : World α) :
    (movement self gsm cp notification w).sets =
      (coordinate_id cp w, withAddress cp (firstAddress w.reverse)) ::
        (match w.reverse, w.sendNotificationThrows 0 with
         | .resolved (_ :: _), some _ =>
           [(coordinate_id cp w, withAddress cp (JSVal.str addressUnavailable))]
         | _, _ => []) := by
  unfold movement
  cases w.reverse with
  | rejected error =>
    simp only [reverse_catch]
    cases w.sendNotificationThrows 0 <;>
      simp [Run.sets, Run.after, withAddress, firstAddress]
  | resolved result =>
    cases result with
    | nil =>
      simp only [reverse_then, reverse_catch]
      cases w.sendNotificationThrows 0 <;>
        simp [Run.sets, Run.after, withAddress, firstAddress]
    | cons first rest =>
      simp only [reverse_then, reverse_catch]
      have h2 := withAddress_twice cp first.formattedAddress (JSVal.str addressUnavailable)
      simp only [withAddress] at h2
      cases w.sendNotificationThrows 0 <;> cases w.sendNotificationThrows 1 <;>
        simp [Run.sets, Run.after, withAddress, firstAddress, h2]

theorem movement_topics (self : Tracker) (gsm : Bool) (cp : CoordinateParams α)
    (notification : Obj) (w : World α) :
    (movement self gsm cp notification w).topics =
      "Notify_Movement" ::
        (match w.reverse, w.sendNotificationThrows 0 with
         | .resolved (_ :: _), some _ => ["Notify_Movement"]
         | _, _ => []) := by
  unfold movement
  cases w.reverse with
  | rejected error =>
    simp only [reverse_catch]
    cases w.sendNotificationThrows 0 <;> simp [Run.topics, Run.after]
  | resolved result =>
    cases result with
    | nil =>
      simp only [reverse_then, reverse_catch]
      cases w.sendNotificationThrows 0 <;> simp [Run.topics, Run.after]
    | cons first rest =>
      simp only [reverse_then, reverse_catch]
      cases w.sendNotificationThrows 0 <;> cases w.sendNotificationThrows 1 <;>
        simp [Run.topics, Run.after]

theorem stationary_observed (self : Tracker) (gsm : Bool) (cp : CoordinateParams α)
    (notification : Obj) (w : World α) (last : QueryDocumentSnapshot α) :
    (stationary self gsm cp notification w last).reverseCalls = 0 ∧
    (stationary self gsm cp notification w last).sets = [] ∧
    (stationary self gsm cp notification w last).updates = [(last.id, stationaryPayload cp)] ∧
    (stationary self gsm cp notification w last).topics = ["Notify_Stopped"] ∧
    (stationary self gsm cp notification w last).unhandledRejection = false := by
  unfold stationary
  cases w.sendNotificationThrows 0 <;> cases self.get "name" <;>
    simp [Run.reverseCalls, Run.sets, Run.updates, Run.topics, stationaryPayload]

theorem threshold_eq (tp : TrackerParams) (a b : α) :
    (if tp.lastCoordinate.type.looseEqStr "GSM" = true then a else b) =
      (if tp.lastCoordinate.type = JSVal.str "GSM" then a else b) := by
  by_cases h : tp.lastCoordinate.type = JSVal.str "GSM"
  · rw [if_pos h, if_pos ((looseEqStr_iff _ _).mpr h)]
  · rw [if_neg h, if_neg (fun e => h ((looseEqStr_iff _ _).mp e))]

theorem after_observed (pre : List (Effect α)) (r : Run α) :
    (Run.after pre r).reverseCalls
      = (Run.mk pre false).reverseCalls + r.reverseCalls ∧
    (Run.after pre r).sets = (Run.mk pre false).sets ++ r.sets ∧
    (Run.after pre r).updates = (Run.mk pre false).updates ++ r.updates ∧
    (Run.after pre r).topics = (Run.mk pre false).topics ++ r.topics ∧
    (Run.after pre r).queries = (Run.mk pre false).queries + r.queries ∧
    (Run.after pre r).unhandledRejection = r.unhandledRejection := by
  simp [Run.after, Run.reverseCalls, Run.sets, Run.updates, Run.topics, Run.queries,
    List.filterMap_append, List.filter_append]

variable [Add α] [Sub α] [Mul α] [Div α] [OfScientific α] [LT α]
  [DecidableRel (fun a b : α => a < b)]

theorem insert_coordinates_write_rejected (Math : MathObj α) (self : Tracker)
    (tp : TrackerParams) (cp : CoordinateParams α) (notification : Obj) (w : World α)
    (error : String) (hw : w.trackerSet = Outcome.rejected error) :
    insert_coordinates Math self tp cp notification w =
      { effects := [Effect.trackerSet self._id tp,
          Effect.log Level.error ("Error updating tracker on DB: " ++ error)],
        unhandledRejection := false } := by
  simp [insert_coordinates, hw, Run.after]

theorem insert_coordinates_query_rejected (Math : MathObj α) (self : Tracker)
    (tp : TrackerParams) (cp : CoordinateParams α) (notification : Obj) (w : World α)
    (u : Unit) (error : String) (hw : w.trackerSet = Outcome.resolved u)
    (hq : w.coordinatesQuery = Outcome.rejected error) :
    insert_coordinates Math self tp cp notification w =
      { effects := [Effect.trackerSet self._id tp,
          Effect.coordinatesQuery self._id (Obj.get cp.fields "datetime"),
          Effect.log Level.error ("Error inserting coordinates on DB: " ++ error)],
        unhandledRejection := false } := by
  simp [insert_coordinates, hw, hq, Run.after]

theorem insert_coordinates_resolved (Math : MathObj α) (self : Tracker)
    (tp : TrackerParams) (cp : CoordinateParams α) (notification : Obj) (w : World α)
    (u : Unit) (docs : List (QueryDocumentSnapshot α))
    (hw : w.trackerSet = Outcome.resolved u) (hq : w.coordinatesQuery = Outcome.resolved docs) :
    insert_coordinates Math self tp cp notification w =
      Run.after [Effect.trackerSet self._id tp,
          Effect.coordinatesQuery self._id (Obj.get cp.fields "datetime")]
        (query_then Math self tp cp notification w docs) := by
  simp [insert_coordinates, hw, hq, Run.after]

theorem query_then_movement (Math : MathObj α) (self : Tracker)
    (tp : TrackerParams) (cp : CoordinateParams α) (notification : Obj) (w : World α)
    (docs : List (QueryDocumentSnapshot α)) (h : MovementDeclared Math tp cp docs) :
    query_then Math self tp cp notification w docs =
      movement self (tp.lastCoordinate.type.looseEqStr "GSM") cp notification w := by
  unfold query_then
  rcases h with h | ⟨last, hl, hd⟩
  · simp [h]
  · rw [← threshold_eq] at hd
    simp [hl, movementCondition, hd]

theorem query_then_stationary (Math : MathObj α) (self : Tracker)
    (tp : TrackerParams) (cp : CoordinateParams α) (notification : Obj) (w : World α)
    (docs : List (QueryDocumentSnapshot α)) (h : ¬ MovementDeclared Math tp cp docs) :
    ∃ last, docs.head? = some last ∧
      query_then Math self tp cp notification w docs =
        stationary self (tp.lastCoordinate.type.looseEqStr "GSM") cp notification w last := by
  unfold query_then
  cases hl : docs.head? with
  | none => exact absurd (Or.inl hl) h
  | some last =>
    refine ⟨last, rfl, ?_⟩
    have hd : ¬ ((if tp.lastCoordinate.type.looseEqStr "GSM" = true then (2000.0 : α)
        else (50.0 : α)) < getDistance Math cp.position last.data.position) := by
      intro hd
      rw [threshold_eq] at hd
      exact h (Or.inr ⟨last, hl, hd⟩)
    simp [movementCondition, hd]

omit [DecidableRel (fun a b : α => a < b)] in
/-- The four ways a call of `insert_coordinates` can go. -/
theorem insert_coordinates_cases (Math : MathObj α)
    (tp : TrackerParams) (cp : CoordinateParams α) (w : World α) :
    (∃ error, w.trackerSet = Outcome.rejected error) ∨
    (∃ u error, w.trackerSet = Outcome.resolved u ∧
      w.coordinatesQuery = Outcome.rejected error) ∨
    (∃ u docs, w.trackerSet = Outcome.resolved u ∧ w.coordinatesQuery = Outcome.resolved docs ∧
      MovementDeclared Math tp cp docs) ∨
    (∃ u docs, w.trackerSet = Outcome.resolved u ∧ w.coordinatesQuery = Outcome.resolved docs ∧
      ¬ MovementDeclared Math tp cp docs) := by
  cases hw : w.trackerSet with
  | rejected error => exact Or.inl ⟨error, rfl⟩
  | resolved u =>
    cases hq : w.coordinatesQuery with
    | rejected error => exact Or.inr (Or.inl ⟨u, error, rfl, rfl⟩)
    | resolved docs =>
      by_cases h : MovementDeclared Math tp cp docs
      · exact Or.inr (Or.inr (Or.inl ⟨u, docs, rfl, rfl, h⟩))
      · exact Or.inr (Or.inr (Or.inr ⟨u, docs, rfl, rfl, h⟩))

/-- Observations on a call that reaches the movement branch. -/
theorem insert_coordinates_movement (Math : MathObj α) (self : Tracker)
    (tp : TrackerParams) (cp : CoordinateParams α) (notification : Obj) (w : World α)
    (u : Unit) (docs : List (QueryDocumentSnapshot α))
    (hw : w.trackerSet = Outcome.resolved u) (hq : w.coordinatesQuery = Outcome.resolved docs)
    (h : MovementDeclared Math tp cp docs) :
    (insert_coordinates Math self tp cp notification w).reverseCalls = 1 ∧
    (insert_coordinates Math self tp cp notification w).updates = [] ∧
    (insert_coordinates Math self tp cp notification w).sets =
      (coordinate_id cp w, withAddress cp (firstAddress w.reverse)) ::
        (match w.reverse, w.sendNotificationThrows 0 with
         | .resolved (_ :: _), some _ =>
           [(coordinate_id cp w, withAddress cp (JSVal.str addressUnavailable))]
         | _, _ => []) ∧
    (insert_coordinates Math self tp cp notification w).topics =
      "Notify_Movement" ::
        (match w.reverse, w.sendNotificationThrows 0 with
         | .resolved (_ :: _), some _ => ["Notify_Movement"]
         | _, _ => []) := by
  rw [insert_coordinates_resolved Math self tp cp notification w u docs hw hq,
    query_then_movement Math self tp cp notification w docs h]
  obtain ⟨h1, h2, h3, h4, _, _⟩ := after_observed
    [Effect.trackerSet self._id tp,
      Effect.coordinatesQuery self._id (Obj.get cp.fields "datetime")]
    (movement self (tp.lastCoordinate.type.looseEqStr "GSM") cp notification w)
  rw [h1, h2, h3, h4, movement_reverseCalls, movement_updates, movement_sets, movement_topics]
  simp [Run.reverseCalls, Run.updates, Run.sets, Run.topics]

/-- Observations on a call that reaches the stationary branch. -/
theorem insert_coordinates_stationary (Math : MathObj α) (self : Tracker)
    (tp : TrackerParams) (cp : CoordinateParams α) (notification : Obj) (w : World α)
    (u : Unit) (docs : List (QueryDocumentSnapshot α))
    (hw : w.trackerSet = Outcome.resolved u) (hq : w.coordinatesQuery = Outcome.resolved docs)
    (h : ¬ MovementDeclared Math tp cp docs) :
    ∃ last, docs.head? = some last ∧
      (insert_coordinates Math self tp cp notification w).reverseCalls = 0 ∧
      (insert_coordinates Math self tp cp notification w).sets = [] ∧
      (insert_coordinates Math self tp cp notification w).updates
        = [(last.id, stationaryPayload cp)] ∧
      (insert_coordinates Math self tp cp notification w).topics = ["Notify_Stopped"] ∧
      (insert_coordinates Math self tp cp notification w).unhandledRejection = false := by
  obtain ⟨last, hl, hq2⟩ := query_then_stationary Math self tp cp notification w docs h
  refine ⟨last, hl, ?_⟩
  rw [insert_coordinates_resolved Math self tp cp notification w u docs hw hq, hq2]
  obtain ⟨h1, h2, h3, h4, _, h6⟩ := after_observed
    [Effect.trackerSet self._id tp,
      Effect.coordinatesQuery self._id (Obj.get cp.fields "datetime")]
    (stationary self (tp.lastCoordinate.type.looseEqStr "GSM") cp notification w last)
  obtain ⟨s1, s2, s3, s4, s5⟩ := stationary_observed self
    (tp.lastCoordinate.type.looseEqStr "GSM") cp notification w last
  rw [h1, h2, h3, h4, h6, s1, s2, s3, s4, s5]
  simp [Run.reverseCalls, Run.updates, Run.sets, Run.topics]

/-- A call that does not get past the tracker write or the query performs no geocoder
call, no coordinate write and no notification. -/
theorem insert_coordinates_aborted (Math : MathObj α) (self : Tracker)
    (tp : TrackerParams) (cp : CoordinateParams α) (notification : Obj) (w : World α)
    (h : (∃ error, w.trackerSet = Outcome.rejected error) ∨
      (∃ u error, w.trackerSet = Outcome.resolved u ∧
        w.coordinatesQuery = Outcome.rejected error)) :
    (insert_coordinates Math self tp cp notification w).reverseCalls = 0 ∧
    (insert_coordinates Math self tp cp notification w).sets = [] ∧
    (insert_coordinates Math self tp cp notification w).updates = [] ∧
    (insert_coordinates Math self tp cp notification w).topics = [] ∧
    (insert_coordinates Math self tp cp notification w).unhandledRejection = false := by
  rcases h with ⟨error, hw⟩ | ⟨u, error, hw, hq⟩
  · rw [insert_coordinates_write_rejected Math self tp cp notification w error hw]
    simp [Run.reverseCalls, Run.updates, Run.sets, Run.topics]
  · rw [insert_coordinates_query_rejected Math self tp cp notification w u error hw hq]
    simp [Run.reverseCalls, Run.updates, Run.sets, Run.topics]

/-- The movement branch is entered exactly when the write and the query succeed and the
movement test holds. -/
theorem movementTaken_iff (Math : MathObj α) (self : Tracker)
    (tp : TrackerParams) (cp : CoordinateParams α) (notification : Obj) (w : World α) :
    (insert_coordinates Math self tp cp notification w).movementTaken = true ↔
      ∃ u docs, w.trackerSet = Outcome.resolved u ∧
        w.coordinatesQuery = Outcome.resolved docs ∧ MovementDeclared Math tp cp docs := by
  constructor
  · intro hm
    rcases insert_coordinates_cases Math tp cp w with h | h | h | ⟨u, docs, hw, hq, h⟩
    · have := (insert_coordinates_aborted Math self tp cp notification w (Or.inl h)).1
      simp [Run.movementTaken, this] at hm
    · have := (insert_coordinates_aborted Math self tp cp notification w (Or.inr h)).1
      simp [Run.movementTaken, this] at hm
    · exact h
    · obtain ⟨last, _, h0, _⟩ :=
        insert_coordinates_stationary Math self tp cp notification w u docs hw hq h
      simp [Run.movementTaken, h0] at hm
  · rintro ⟨u, docs, hw, hq, h⟩
    have := (insert_coordinates_movement Math self tp cp notification w u docs hw hq h).1
    simp [Run.movementTaken, this]

/-- The stationary branch is entered exactly when the write and the query succeed and
the movement test fails. -/
theorem stationaryTaken_iff (Math : MathObj α) (self : Tracker)
    (tp : TrackerParams) (cp : CoordinateParams α) (notification : Obj) (w : World α) :
    (insert_coordinates Math self tp cp notification w).stationaryTaken = true ↔
      ∃ u docs, w.trackerSet = Outcome.resolved u ∧
        w.coordinatesQuery = Outcome.resolved docs ∧ ¬ MovementDeclared Math tp cp docs := by
  constructor
  · intro hm
    rcases insert_coordinates_cases Math tp cp w with h | h | ⟨u, docs, hw, hq, h⟩ | h
    · have := (insert_coordinates_aborted Math self tp cp notification w (Or.inl h)).2.2.1
      simp [Run.stationaryTaken, this] at hm
    · have := (insert_coordinates_aborted Math self tp cp notification w (Or.inr h)).2.2.1
      simp [Run.stationaryTaken, this] at hm
    · have := (insert_coordinates_movement Math self tp cp notification w u docs hw hq h).2.1
      simp [Run.stationaryTaken, this] at hm
    · exact h
  · rintro ⟨u, docs, hw, hq, h⟩
    obtain ⟨last, _, _, _, h0, _⟩ :=
      insert_coordinates_stationary Math self tp cp notification w u docs hw hq h
    simp [Run.stationaryTaken, h0]

end PipelineLemmas

/-! ## Theorems -/

/-- C7, amended: after a successful `loadConfigFromDB` returning the records `rs`,
whatever the prior state of the tracker, the configuration set has exactly the names
occurring in `rs` other than `"__proto__"` (each once; a record of that name becomes the
prototype of the set and adds no name), every such name is mapped to the last record of
`rs` with that name, and the pending list is the subsequence of `rs` whose
`status.finished` is false, in the order of `rs`. -/
theorem loadConfigFromDB_replaces_wholesale (engine : Engine)
    (self : Tracker) (rs : List Config) :
    (∀ name : String,
      name ∈ Dict.keys (loadConfigFromDB engine self (Outcome.resolved rs)).1._configurations.own
        ↔ name ≠ "__proto__" ∧ ∃ c ∈ rs, c.name = name) ∧
    (Dict.keys (loadConfigFromDB engine self (Outcome.resolved rs)).1._configurations.own).Nodup ∧
    (∀ name : String, name ≠ "__proto__" →
      Dict.find (loadConfigFromDB engine self (Outcome.resolved rs)).1._configurations.own name
        = (rs.filter (fun c => decide (c.name = name))).getLast?) ∧
    (loadConfigFromDB engine self (Outcome.resolved rs)).1._pending_configs
      = rs.filter (fun c => decide (c.status.finished = false)) := by
  rw [loadConfigFromDB_resolved]
  have hfind := fun name => loadConfig_foldl_find
    { self with _configurations := ConfigurationSet.empty, _pending_configs := [] } rs name rfl
  have hproto := loadConfig_foldl_no_proto_key
    { self with _configurations := ConfigurationSet.empty, _pending_configs := [] } rs rfl
  refine ⟨?_, loadConfig_foldl_nodup _ rs rfl, hfind, ?_⟩
  · intro name
    rw [Dict.mem_keys_iff_find]
    by_cases hname : name = "__proto__"
    · subst hname
      rw [hproto]
      simp
    · rw [hfind name hname]
      constructor
      · intro h
        refine ⟨hname, ?_⟩
        cases hl : (rs.filter (fun c => decide (c.name = name))).getLast? with
        | none => rw [hl] at h; simp at h
        | some c =>
          have hmem := List.mem_of_getLast?_eq_some hl
          rw [List.mem_filter] at hmem
          exact ⟨c, hmem.1, by simpa using hmem.2⟩
      · rintro ⟨_, c, hc, hcn⟩
        have hmem : c ∈ rs.filter (fun c => decide (c.name = name)) := by
          rw [List.mem_filter]
          exact ⟨hc, by simpa using hcn⟩
        cases hl : (rs.filter (fun c => decide (c.name = name))).getLast? with
        | none =>
          rw [List.getLast?_eq_none_iff] at hl
          rw [hl] at hmem
          simp at hmem
        | some c => simp
  · rw [loadConfig_foldl_pending]
    simp

/-- C7, counterexample: when the records returned are one named `"__proto__"` and one named
`"a"`, the configuration set has the single name `"a"`: the name `"__proto__"` occurs in
the records and is not in the set. -/
theorem proto_record_adds_no_name :
    Dict.keys (loadConfigFromDB exampleEngine exampleTracker (Outcome.resolved
      [ { name := "__proto__", status := { finished := true, datetime := 2 }, fields := [] },
        { name := "a", status := { finished := true, datetime := 1 }, fields := [] } ])).1._configurations.own
      = ["a"] ∧
    ¬ ("__proto__" ∈ Dict.keys (loadConfigFromDB exampleEngine exampleTracker (Outcome.resolved
      [ { name := "__proto__", status := { finished := true, datetime := 2 }, fields := [] },
        { name := "a", status := { finished := true, datetime := 1 }, fields := [] } ])).1._configurations.own) := by
  refine ⟨by decide, by decide⟩

/-- C8: over the reals, the intermediate value `a` of `getDistance` is the haversine term
`sin²(Δlat·p/2) + cos(lat1·p)·cos(lat2·p)·sin²(Δlon·p/2)` with `p = 0.017453292519943295`,
and `getDistance` is `2·R·asin(√a)` with `R = 6 371 000`. -/
theorem getDistance_is_haversine (c1 c2 : Coordinates ℝ) :
    getDistance_a ⟨Real.cos, Real.arcsin, Real.sqrt⟩ c1 c2
      = Real.sin ((c2.latitude - c1.latitude) * 0.017453292519943295 / 2) ^ 2
        + Real.cos (c1.latitude * 0.017453292519943295)
          * Real.cos (c2.latitude * 0.017453292519943295)
          * Real.sin ((c2.longitude - c1.longitude) * 0.017453292519943295 / 2) ^ 2 ∧
    getDistance ⟨Real.cos, Real.arcsin, Real.sqrt⟩ c1 c2
      = 2 * 6371000 * Real.arcsin (Real.sqrt
          (Real.sin ((c2.latitude - c1.latitude) * 0.017453292519943295 / 2) ^ 2
            + Real.cos (c1.latitude * 0.017453292519943295)
              * Real.cos (c2.latitude * 0.017453292519943295)
              * Real.sin ((c2.longitude - c1.longitude) * 0.017453292519943295 / 2) ^ 2)) := by
  have half : ∀ x : ℝ, Real.sin (x / 2) ^ 2 = (1 - Real.cos x) / 2 := by
    intro x
    have h1 := Real.cos_two_mul (x / 2)
    have h2 := Real.sin_sq_add_cos_sq (x / 2)
    have h3 : 2 * (x / 2) = x := by ring
    rw [h3] at h1
    linarith
  have ha : getDistance_a ⟨Real.cos, Real.arcsin, Real.sqrt⟩ c1 c2
      = Real.sin ((c2.latitude - c1.latitude) * 0.017453292519943295 / 2) ^ 2
        + Real.cos (c1.latitude * 0.017453292519943295)
          * Real.cos (c2.latitude * 0.017453292519943295)
          * Real.sin ((c2.longitude - c1.longitude) * 0.017453292519943295 / 2) ^ 2 := by
    simp only [getDistance_a]
    rw [half, half]
    norm_num
    ring
  refine ⟨ha, ?_⟩
  simp only [getDistance]
  rw [ha]
  norm_num

/-- C10, evaluated at the failing input: the instants 01:00:00.000 and 13:00:00.000 of
the same day, twelve hours apart, get the same key under the format
`YYYY_MM_DD_hh_mm_ss_SSS`, 13:30 gets a key that is smaller than the key of 12:30, and
two reports without id processed at 01:00:00.000 and at 13:00:00.000 are written under
the same document key. -/
theorem key_format_collides_across_noon :
    (insert_coordinates (constantDistance 0) exampleTracker (exampleTrackerParams "GPS")
      exampleReport [] (firstReportWorld ⟨2018, 1, 1, 1, 0, 0, 0⟩)).sets.map Prod.fst
      = (insert_coordinates (constantDistance 0) exampleTracker (exampleTrackerParams "GPS")
        exampleReport [] (firstReportWorld ⟨2018, 1, 1, 13, 0, 0, 0⟩)).sets.map Prod.fst ∧
    LocalTime.before ⟨2018, 1, 1, 1, 0, 0, 0⟩ ⟨2018, 1, 1, 13, 0, 0, 0⟩ = true ∧
    moment_format ⟨2018, 1, 1, 1, 0, 0, 0⟩ "YYYY_MM_DD_hh_mm_ss_SSS"
      = "2018_01_01_01_00_00_000" ∧
    moment_format ⟨2018, 1, 1, 13, 0, 0, 0⟩ "YYYY_MM_DD_hh_mm_ss_SSS"
      = "2018_01_01_01_00_00_000" ∧
    LocalTime.before ⟨2018, 1, 1, 12, 30, 0, 0⟩ ⟨2018, 1, 1, 13, 30, 0, 0⟩ = true ∧
    (moment_format ⟨2018, 1, 1, 13, 30, 0, 0⟩ "YYYY_MM_DD_hh_mm_ss_SSS").toList
      < (moment_format ⟨2018, 1, 1, 12, 30, 0, 0⟩ "YYYY_MM_DD_hh_mm_ss_SSS").toList := by
  refine ⟨by decide, by decide, by decide, by decide, by decide, by decide⟩

section PipelineTheorems

variable {α : Type} [Add α] [Sub α] [Mul α] [Div α] [OfScientific α] [LT α]
  [DecidableRel (fun a b : α => a < b)]

/-- C1: when the tracker-state write and the last-coordinate query both succeed, the
movement branch is taken if and only if the query returned no prior coordinate or
`getDistance(coordinate_params.position, lastCoordinate.position)` is greater than the
threshold, 2000 when `tracker_params.lastCoordinate.type` is `"GSM"` and 50 otherwise;
and the stationary branch is taken if and only if that test fails. -/
theorem movement_iff_no_prior_or_beyond_threshold (Math : MathObj α) (self : Tracker)
    (tracker_params : TrackerParams) (coordinate_params : CoordinateParams α)
    (notification : Obj) (w : World α) (docs : List (QueryDocumentSnapshot α))
    (hw : w.trackerSet = Outcome.resolved ())
    (hq : w.coordinatesQuery = Outcome.resolved docs) :
    ((insert_coordinates Math self tracker_params coordinate_params notification w).movementTaken
        = true ↔
      (docs.head? = none ∨
        ∃ lastCoordinate, docs.head? = some lastCoordinate ∧
          (if tracker_params.lastCoordinate.type = JSVal.str "GSM"
            then (2000.0 : α) else (50.0 : α))
            < getDistance Math coordinate_params.position lastCoordinate.data.position)) ∧
    ((insert_coordinates Math self tracker_params coordinate_params notification w).stationaryTaken
        = true ↔
      ¬ (docs.head? = none ∨
        ∃ lastCoordinate, docs.head? = some lastCoordinate ∧
          (if tracker_params.lastCoordinate.type = JSVal.str "GSM"
            then (2000.0 : α) else (50.0 : α))
            < getDistance Math coordinate_params.position lastCoordinate.data.position)) := by
  constructor
  · rw [movementTaken_iff]
    constructor
    · rintro ⟨u, docs2, _, hq2, h⟩
      rw [hq] at hq2
      rw [Outcome.resolved.inj hq2]
      exact h
    · intro h
      exact ⟨(), docs, hw, hq, h⟩
  · rw [stationaryTaken_iff]
    constructor
    · rintro ⟨u, docs2, _, hq2, h⟩
      rw [hq] at hq2
      rw [Outcome.resolved.inj hq2]
      exact h
    · intro h
      exact ⟨(), docs, hw, hq, h⟩

/-- C2, amended: when the tracker-state write and the last-coordinate query both
succeed, `sendNotification` is called exactly once, with topic `"Notify_Movement"` when
the movement branch is taken and `"Notify_Stopped"` when the stationary branch is taken,
for every outcome of the geocoder and of the notification provider other than this one:
the movement branch is taken, the geocoder resolves with a result, and the first call of
`sendNotification` throws. -/
theorem one_notification_when_branch_reached (Math : MathObj α) (self : Tracker)
    (tracker_params : TrackerParams) (coordinate_params : CoordinateParams α)
    (notification : Obj) (w : World α) (docs : List (QueryDocumentSnapshot α))
    (hw : w.trackerSet = Outcome.resolved ())
    (hq : w.coordinatesQuery = Outcome.resolved docs)
    (hx : (insert_coordinates Math self tracker_params coordinate_params notification
        w).movementTaken = true →
      ∀ first rest, w.reverse = Outcome.resolved (first :: rest) →
        w.sendNotificationThrows 0 = none) :
    (insert_coordinates Math self tracker_params coordinate_params notification w).topics.length
      = 1 ∧
    ((insert_coordinates Math self tracker_params coordinate_params notification w).movementTaken
        = true →
      (insert_coordinates Math self tracker_params coordinate_params notification w).topics
        = ["Notify_Movement"]) ∧
    ((insert_coordinates Math self tracker_params coordinate_params notification w).stationaryTaken
        = true →
      (insert_coordinates Math self tracker_params coordinate_params notification w).topics
        = ["Notify_Stopped"]) := by
  by_cases h : MovementDeclared Math tracker_params coordinate_params docs
  · obtain ⟨_, hu, _, ht⟩ := insert_coordinates_movement Math self tracker_params
      coordinate_params notification w () docs hw hq h
    have hm : (insert_coordinates Math self tracker_params coordinate_params notification
        w).movementTaken = true :=
      (movementTaken_iff Math self tracker_params coordinate_params notification w).mpr
        ⟨(), docs, hw, hq, h⟩
    have ht2 : (insert_coordinates Math self tracker_params coordinate_params
        notification w).topics = ["Notify_Movement"] := by
      rw [ht]
      cases hr : w.reverse with
      | rejected error => rfl
      | resolved result =>
        cases result with
        | nil => rfl
        | cons first rest =>
          rw [hx hm first rest hr]
    refine ⟨by rw [ht2]; rfl, fun _ => ht2, ?_⟩
    intro hs
    simp [Run.stationaryTaken, hu] at hs
  · obtain ⟨last, _, hr, _, _, ht, _⟩ := insert_coordinates_stationary Math self
      tracker_params coordinate_params notification w () docs hw hq h
    refine ⟨by rw [ht]; rfl, ?_, fun _ => ht⟩
    intro hm
    simp [Run.movementTaken, hr] at hm

/-- C3, amended: for every report that takes the movement branch and for every outcome
of the geocoder, a coordinate document is written with `set()`, also when geocoding
fails, and every document written is the report with `address` assigned and every other
field and the position unchanged: it has an `address` field, and a `lastDatetime` field
only if the report carried one.  When geocoding fails (or returns no result) exactly one
document is written, with the fixed fallback string as address; when geocoding succeeds
and the first call of `sendNotification` returns, exactly one document is written, with
the `formattedAddress` of the first geocoder result as address. -/
theorem movement_document_has_address (Math : MathObj α) (self : Tracker)
    (tracker_params : TrackerParams) (coordinate_params : CoordinateParams α)
    (notification : Obj) (w : World α)
    (hm : (insert_coordinates Math self tracker_params coordinate_params notification
      w).movementTaken = true) :
    (∀ first rest, w.reverse = Outcome.resolved (first :: rest) →
      w.sendNotificationThrows 0 = none →
      (insert_coordinates Math self tracker_params coordinate_params notification w).sets.map
        Prod.snd = [withAddress coordinate_params first.formattedAddress]) ∧
    (∀ error, w.reverse = Outcome.rejected error →
      (insert_coordinates Math self tracker_params coordinate_params notification w).sets.map
        Prod.snd = [withAddress coordinate_params
          (JSVal.str "Endereço próximo à coordenada não disponível.")]) ∧
    (w.reverse = Outcome.resolved [] →
      (insert_coordinates Math self tracker_params coordinate_params notification w).sets.map
        Prod.snd = [withAddress coordinate_params
          (JSVal.str "Endereço próximo à coordenada não disponível.")]) ∧
    (insert_coordinates Math self tracker_params coordinate_params notification w).sets ≠ [] ∧
    (∀ e ∈ (insert_coordinates Math self tracker_params coordinate_params notification w).sets,
      Obj.has e.2.fields "address" = true ∧
      Obj.has e.2.fields "lastDatetime" = Obj.has coordinate_params.fields "lastDatetime" ∧
      e.2.position = coordinate_params.position ∧
      ∀ key, key ≠ "address" → Dict.find e.2.fields key = Dict.find coordinate_params.fields key) := by
  obtain ⟨u, docs, hw, hq, h⟩ := (movementTaken_iff Math self tracker_params
    coordinate_params notification w).mp hm
  obtain ⟨_, _, hs, _⟩ := insert_coordinates_movement Math self tracker_params
    coordinate_params notification w u docs hw hq h
  have hprop : ∀ a : JSVal,
      Obj.has (withAddress coordinate_params a).fields "address" = true ∧
      Obj.has (withAddress coordinate_params a).fields "lastDatetime"
        = Obj.has coordinate_params.fields "lastDatetime" ∧
      (withAddress coordinate_params a).position = coordinate_params.position ∧
      ∀ key, key ≠ "address" → Dict.find (withAddress coordinate_params a).fields key
        = Dict.find coordinate_params.fields key := by
    intro a
    have hne : "lastDatetime" ≠ "address" := by decide
    refine ⟨?_, ?_, rfl, ?_⟩
    · simp [Obj.has, withAddress, Dict.find_assign_self]
    · simp [Obj.has, withAddress, Dict.find_assign_of_ne _ _ _ _ hne]
    · intro key hkey
      simp [withAddress, Dict.find_assign_of_ne _ _ _ _ hkey]
  rw [hs]
  refine ⟨?_, ?_, ?_, by simp, ?_⟩
  · intro first rest hr hn
    simp [hr, hn, firstAddress]
  · intro error hr
    simp [hr, firstAddress, addressUnavailable]
  · intro hr
    simp [hr, firstAddress, addressUnavailable]
  · intro e he
    rw [List.mem_cons] at he
    rcases he with he | he
    · rw [he]
      exact hprop _
    · cases hr : w.reverse with
      | rejected error => rw [hr] at he; simp at he
      | resolved result =>
        cases result with
        | nil => rw [hr] at he; simp at he
        | cons first rest =>
          cases hn : w.sendNotificationThrows 0 with
          | none => rw [hr, hn] at he; simp at he
          | some error =>
            rw [hr, hn] at he
            simp only [List.mem_singleton] at he
            rw [he]
            exact hprop _

/-- C4: for every report that takes the stationary branch, exactly one `update()` is
made, on the document whose id is the id of the last coordinate returned by the query;
its payload is the report with `datetime` removed, `lastDatetime` set to the original
`datetime` of the report and every other field (and the position) unchanged; no
coordinate document is created with `set()` and the geocoder is not called. -/
theorem stationary_updates_last_document (Math : MathObj α) (self : Tracker)
    (tracker_params : TrackerParams) (coordinate_params : CoordinateParams α)
    (notification : Obj) (w : World α)
    (hs : (insert_coordinates Math self tracker_params coordinate_params notification
      w).stationaryTaken = true) :
    ∃ docs lastCoordinate payload,
      w.coordinatesQuery = Outcome.resolved docs ∧ docs.head? = some lastCoordinate ∧
      (insert_coordinates Math self tracker_params coordinate_params notification w).updates
        = [(lastCoordinate.id, payload)] ∧
      payload.position = coordinate_params.position ∧
      Obj.has payload.fields "datetime" = false ∧
      Dict.find payload.fields "lastDatetime"
        = some (Obj.get coordinate_params.fields "datetime") ∧
      (∀ key, key ≠ "datetime" → key ≠ "lastDatetime" →
        Dict.find payload.fields key = Dict.find coordinate_params.fields key) ∧
      (insert_coordinates Math self tracker_params coordinate_params notification w).sets = [] ∧
      (insert_coordinates Math self tracker_params coordinate_params notification
        w).reverseCalls = 0 := by
  obtain ⟨u, docs, hw, hq, h⟩ := (stationaryTaken_iff Math self tracker_params
    coordinate_params notification w).mp hs
  obtain ⟨last, hlast, hr, hsets, hupd, _, _⟩ := insert_coordinates_stationary Math self
    tracker_params coordinate_params notification w u docs hw hq h
  have hne : "lastDatetime" ≠ "datetime" := by decide
  refine ⟨docs, last, stationaryPayload coordinate_params, hq, hlast, hupd, rfl, ?_, ?_, ?_,
    hsets, hr⟩
  · simp [Obj.has, stationaryPayload, Dict.find_remove_self]
  · simp [stationaryPayload, Dict.find_remove_of_ne _ _ _ hne, Dict.find_assign_self]
  · intro key h1 h2
    simp [stationaryPayload, Dict.find_remove_of_ne _ _ _ h1,
      Dict.find_assign_of_ne _ _ _ _ h2]

/-- C5, amended: for every report that takes the movement branch, every coordinate
document is written under one key; the key is the id of the report converted to a string
when the report carries a truthy id, and, when the report carries no id, it is the time
read on the clock of the process during the call (`new Date()`), not the datetime of the
report, formatted with `YYYY_MM_DD_hh_mm_ss_SSS`. -/
theorem movement_key_is_id_or_clock (Math : MathObj α) (self : Tracker)
    (tracker_params : TrackerParams) (coordinate_params : CoordinateParams α)
    (notification : Obj) (w : World α)
    (hm : (insert_coordinates Math self tracker_params coordinate_params notification
      w).movementTaken = true) :
    (insert_coordinates Math self tracker_params coordinate_params notification w).sets ≠ [] ∧
    ∀ e ∈ (insert_coordinates Math self tracker_params coordinate_params notification w).sets,
      ((Obj.get coordinate_params.fields "id").truthy = true →
        e.1 = (Obj.get coordinate_params.fields "id").toStringJS w.engine) ∧
      (Obj.has coordinate_params.fields "id" = false →
        e.1 = moment_format w.now "YYYY_MM_DD_hh_mm_ss_SSS") := by
  obtain ⟨u, docs, hw, hq, h⟩ := (movementTaken_iff Math self tracker_params
    coordinate_params notification w).mp hm
  obtain ⟨_, _, hs, _⟩ := insert_coordinates_movement Math self tracker_params
    coordinate_params notification w u docs hw hq h
  have hkey : ((Obj.get coordinate_params.fields "id").truthy = true →
        coordinate_id coordinate_params w
          = (Obj.get coordinate_params.fields "id").toStringJS w.engine) ∧
      (Obj.has coordinate_params.fields "id" = false →
        coordinate_id coordinate_params w = moment_format w.now "YYYY_MM_DD_hh_mm_ss_SSS") := by
    constructor
    · intro ht
      simp [coordinate_id, ht]
    · intro hno
      have hund : Obj.get coordinate_params.fields "id" = JSVal.undefined := by
        unfold Obj.has at hno
        unfold Obj.get
        cases hf : Dict.find coordinate_params.fields "id" with
        | none => rfl
        | some v => rw [hf] at hno; simp at hno
      simp [coordinate_id, hund, JSVal.truthy]
  rw [hs]
  refine ⟨by simp, ?_⟩
  intro e he
  have he1 : e.1 = coordinate_id coordinate_params w := by
    rw [List.mem_cons] at he
    rcases he with he | he
    · rw [he]
    · cases hr : w.reverse with
      | rejected error => rw [hr] at he; simp at he
      | resolved result =>
        cases result with
        | nil => rw [hr] at he; simp at he
        | cons first rest =>
          cases hn : w.sendNotificationThrows 0 with
          | none => rw [hr, hn] at he; simp at he
          | some error =>
            rw [hr, hn] at he
            simp only [List.mem_singleton] at he
            rw [he]
  rw [he1]
  exact hkey

/-- C6: when the tracker-state write fails, no last-coordinate query, no geocoder call,
no `set()` or `update()` of a coordinate document and no `sendNotification` call is made;
when the write succeeds and the last-coordinate query fails, no geocoder call, no `set()`
or `update()` of a coordinate document and no `sendNotification` call is made; in both
cases the error is handled: no rejection is left without a handler. -/
theorem failure_aborts_the_call (Math : MathObj α) (self : Tracker)
    (tracker_params : TrackerParams) (coordinate_params : CoordinateParams α)
    (notification : Obj) (w : World α) :
    (∀ error, w.trackerSet = Outcome.rejected error →
      (insert_coordinates Math self tracker_params coordinate_params notification w).queries
        = 0 ∧
      (insert_coordinates Math self tracker_params coordinate_params notification
        w).reverseCalls = 0 ∧
      (insert_coordinates Math self tracker_params coordinate_params notification w).sets = [] ∧
      (insert_coordinates Math self tracker_params coordinate_params notification w).updates
        = [] ∧
      (insert_coordinates Math self tracker_params coordinate_params notification w).topics
        = [] ∧
      (insert_coordinates Math self tracker_params coordinate_params notification
        w).unhandledRejection = false) ∧
    (∀ error, w.trackerSet = Outcome.resolved () →
      w.coordinatesQuery = Outcome.rejected error →
      (insert_coordinates Math self tracker_params coordinate_params notification
        w).reverseCalls = 0 ∧
      (insert_coordinates Math self tracker_params coordinate_params notification w).sets = [] ∧
      (insert_coordinates Math self tracker_params coordinate_params notification w).updates
        = [] ∧
      (insert_coordinates Math self tracker_params coordinate_params notification w).topics
        = [] ∧
      (insert_coordinates Math self tracker_params coordinate_params notification
        w).unhandledRejection = false) := by
  constructor
  · intro error hw
    refine ⟨?_, insert_coordinates_aborted Math self tracker_params coordinate_params
      notification w (Or.inl ⟨error, hw⟩)⟩
    rw [insert_coordinates_write_rejected Math self tracker_params coordinate_params
      notification w error hw]
    simp [Run.queries]
  · intro error hw hq
    exact insert_coordinates_aborted Math self tracker_params coordinate_params
      notification w (Or.inr ⟨(), error, hw, hq⟩)

end PipelineTheorems

/-- C1, at concrete inputs: with a prior coordinate and a GPS report, a distance of
exactly 50 is stationary, 51 is movement and 49 is stationary; with a GSM report a
distance of 2000 is stationary and 2001 is movement; with no prior coordinate the report
is movement. -/
theorem movement_threshold_examples :
    (insert_coordinates (constantDistance 50) exampleTracker (exampleTrackerParams "GPS")
      exampleReport [] (exampleWorld [exampleLast] (Outcome.resolved []))).stationaryTaken
        = true ∧
    (insert_coordinates (constantDistance 51) exampleTracker (exampleTrackerParams "GPS")
      exampleReport [] (exampleWorld [exampleLast] (Outcome.resolved []))).movementTaken
        = true ∧
    (insert_coordinates (constantDistance 49) exampleTracker (exampleTrackerParams "GPS")
      exampleReport [] (exampleWorld [exampleLast] (Outcome.resolved []))).stationaryTaken
        = true ∧
    (insert_coordinates (constantDistance 2000) exampleTracker (exampleTrackerParams "GSM")
      exampleReport [] (exampleWorld [exampleLast] (Outcome.resolved []))).stationaryTaken
        = true ∧
    (insert_coordinates (constantDistance 2001) exampleTracker (exampleTrackerParams "GSM")
      exampleReport [] (exampleWorld [exampleLast] (Outcome.resolved []))).movementTaken
        = true ∧
    (insert_coordinates (constantDistance 0) exampleTracker (exampleTrackerParams "GPS")
      exampleReport [] (exampleWorld [] (Outcome.resolved []))).movementTaken = true := by
  refine ⟨?_, ?_, ?_, ?_, ?_, ?_⟩
  · exact (movement_iff_no_prior_or_beyond_threshold (constantDistance 50) exampleTracker
      (exampleTrackerParams "GPS") exampleReport [] (exampleWorld [exampleLast]
      (Outcome.resolved [])) [exampleLast] rfl rfl).2.mpr
      (by
        have hne : ¬ ("GPS" = "GSM") := by decide
        simp [exampleTrackerParams, getDistance, constantDistance, hne]
        norm_num)
  · exact (movement_iff_no_prior_or_beyond_threshold (constantDistance 51) exampleTracker
      (exampleTrackerParams "GPS") exampleReport [] (exampleWorld [exampleLast]
      (Outcome.resolved [])) [exampleLast] rfl rfl).1.mpr
      (by
        have hne : ¬ ("GPS" = "GSM") := by decide
        simp [exampleTrackerParams, getDistance, constantDistance, hne]
        norm_num)
  · exact (movement_iff_no_prior_or_beyond_threshold (constantDistance 49) exampleTracker
      (exampleTrackerParams "GPS") exampleReport [] (exampleWorld [exampleLast]
      (Outcome.resolved [])) [exampleLast] rfl rfl).2.mpr
      (by
        have hne : ¬ ("GPS" = "GSM") := by decide
        simp [exampleTrackerParams, getDistance, constantDistance, hne]
        norm_num)
  · exact (movement_iff_no_prior_or_beyond_threshold (constantDistance 2000) exampleTracker
      (exampleTrackerParams "GSM") exampleReport [] (exampleWorld [exampleLast]
      (Outcome.resolved [])) [exampleLast] rfl rfl).2.mpr
      (by
        have hne : ¬ ("GPS" = "GSM") := by decide
        simp [exampleTrackerParams, getDistance, constantDistance, hne]
        norm_num)
  · exact (movement_iff_no_prior_or_beyond_threshold (constantDistance 2001) exampleTracker
      (exampleTrackerParams "GSM") exampleReport [] (exampleWorld [exampleLast]
      (Outcome.resolved [])) [exampleLast] rfl rfl).1.mpr
      (by
        have hne : ¬ ("GPS" = "GSM") := by decide
        simp [exampleTrackerParams, getDistance, constantDistance, hne]
        norm_num)
  · exact (movement_iff_no_prior_or_beyond_threshold (constantDistance 0) exampleTracker
      (exampleTrackerParams "GPS") exampleReport [] (exampleWorld []
      (Outcome.resolved [])) [] rfl rfl).1.mpr (Or.inl rfl)

/-- C2, counterexample: when the tracker-state write is rejected, the call makes no
`sendNotification` call at all, so not exactly one. -/
theorem no_notification_when_write_rejected :
    (insert_coordinates (constantDistance 0) exampleTracker (exampleTrackerParams "GPS")
      exampleReport [] failedWriteWorld).topics = [] ∧
    ¬ (insert_coordinates (constantDistance 0) exampleTracker (exampleTrackerParams "GPS")
      exampleReport [] failedWriteWorld).topics.length = 1 := by
  refine ⟨by decide, by decide⟩

/-- C2 amended, at concrete inputs, with a notification provider whose first call
throws: a first report whose geocoding fails gives one `"Notify_Movement"` call, and a
report 10 m from the prior coordinate gives one `"Notify_Stopped"` call. -/
theorem one_notification_example :
    (insert_coordinates (constantDistance 0) exampleTracker (exampleTrackerParams "GPS")
      exampleReport [] (throwingNotifierWorld [] (Outcome.rejected "x"))).topics
      = ["Notify_Movement"] ∧
    (insert_coordinates (constantDistance 10) exampleTracker (exampleTrackerParams "GPS")
      exampleReport []
      (throwingNotifierWorld [exampleLast] (Outcome.resolved [⟨JSVal.str "Rua A, 1"⟩]))).topics
      = ["Notify_Stopped"] :=
  ⟨(one_notification_when_branch_reached (constantDistance 0) exampleTracker
      (exampleTrackerParams "GPS") exampleReport []
      (throwingNotifierWorld [] (Outcome.rejected "x")) [] rfl rfl
      (fun _ first rest hr => by simp [throwingNotifierWorld, exampleWorld] at hr)).2.1
      (by decide),
   (one_notification_when_branch_reached (constantDistance 10) exampleTracker
      (exampleTrackerParams "GPS") exampleReport []
      (throwingNotifierWorld [exampleLast] (Outcome.resolved [⟨JSVal.str "Rua A, 1"⟩]))
      [exampleLast] rfl rfl
      (fun hm => absurd hm (by
        have hne : ¬ ("GPS" = "GSM") := by decide
        simp [Run.movementTaken, Run.reverseCalls, insert_coordinates, throwingNotifierWorld,
          exampleWorld, query_then, movementCondition, getDistance, constantDistance,
          stationary, Run.after, exampleTrackerParams, JSVal.looseEqStr, exampleTracker,
          Tracker.get, hne]
        norm_num))).2.2
      (by
        have hne : ¬ ("GPS" = "GSM") := by decide
        simp [Run.stationaryTaken, Run.updates, insert_coordinates, throwingNotifierWorld,
          exampleWorld, query_then, movementCondition, getDistance, constantDistance,
          stationary, Run.after, exampleTrackerParams, JSVal.looseEqStr, exampleTracker,
          Tracker.get, hne]
        norm_num
        simp)⟩

/-- C3, counterexample: a first report that carries a `lastDatetime` field takes the
movement branch and is written with that field. -/
theorem movement_keeps_lastDatetime_of_report :
    (insert_coordinates (constantDistance 0) exampleTracker (exampleTrackerParams "GPS")
      { exampleReport with
        fields := [("datetime", JSVal.date exampleTime), ("lastDatetime", JSVal.date exampleTime)] }
      [] (exampleWorld [] (Outcome.resolved [⟨JSVal.str "Rua A, 1"⟩]))).movementTaken = true ∧
    (insert_coordinates (constantDistance 0) exampleTracker (exampleTrackerParams "GPS")
      { exampleReport with
        fields := [("datetime", JSVal.date exampleTime), ("lastDatetime", JSVal.date exampleTime)] }
      [] (exampleWorld [] (Outcome.resolved [⟨JSVal.str "Rua A, 1"⟩]))).sets.map
        (fun e => Obj.has e.2.fields "lastDatetime") = [true] := by
  refine ⟨by decide, by decide⟩

/-- C3 amended, at concrete inputs: a first report, geocoded to an address, is written
with that address; the same report is written with the fallback address when the
geocoder fails, also with a notification provider that throws. -/
theorem movement_document_examples :
    (insert_coordinates (constantDistance 0) exampleTracker (exampleTrackerParams "GPS")
      exampleReport [] (exampleWorld [] (Outcome.resolved [⟨JSVal.str "Rua A, 1"⟩]))).sets.map
        Prod.snd = [withAddress exampleReport (JSVal.str "Rua A, 1")] ∧
    (insert_coordinates (constantDistance 0) exampleTracker (exampleTrackerParams "GPS")
      exampleReport [] (throwingNotifierWorld [] (Outcome.rejected "OVER_QUERY_LIMIT"))).sets.map
        Prod.snd = [withAddress exampleReport
          (JSVal.str "Endereço próximo à coordenada não disponível.")] :=
  ⟨(movement_document_has_address (constantDistance 0) exampleTracker
      (exampleTrackerParams "GPS") exampleReport []
      (exampleWorld [] (Outcome.resolved [⟨JSVal.str "Rua A, 1"⟩])) (by decide)).1
      ⟨JSVal.str "Rua A, 1"⟩ [] rfl rfl,
   (movement_document_has_address (constantDistance 0) exampleTracker
      (exampleTrackerParams "GPS") exampleReport []
      (throwingNotifierWorld [] (Outcome.rejected "OVER_QUERY_LIMIT")) (by decide)).2.1
      "OVER_QUERY_LIMIT" rfl⟩

/-- C4, at concrete inputs: a report 10 m from the prior coordinate updates the document
of that coordinate. -/
theorem stationary_update_example :
    ∃ docs lastCoordinate payload,
      (exampleWorld [exampleLast] (Outcome.resolved [])).coordinatesQuery
        = Outcome.resolved docs ∧ docs.head? = some lastCoordinate ∧
      (insert_coordinates (constantDistance 10) exampleTracker (exampleTrackerParams "GPS")
        exampleReport [] (exampleWorld [exampleLast] (Outcome.resolved []))).updates
        = [(lastCoordinate.id, payload)] ∧
      payload.position = exampleReport.position ∧
      Obj.has payload.fields "datetime" = false ∧
      Dict.find payload.fields "lastDatetime"
        = some (Obj.get exampleReport.fields "datetime") ∧
      (∀ key, key ≠ "datetime" → key ≠ "lastDatetime" →
        Dict.find payload.fields key = Dict.find exampleReport.fields key) ∧
      (insert_coordinates (constantDistance 10) exampleTracker (exampleTrackerParams "GPS")
        exampleReport [] (exampleWorld [exampleLast] (Outcome.resolved []))).sets = [] ∧
      (insert_coordinates (constantDistance 10) exampleTracker (exampleTrackerParams "GPS")
        exampleReport [] (exampleWorld [exampleLast] (Outcome.resolved []))).reverseCalls = 0 :=
  stationary_updates_last_document (constantDistance 10) exampleTracker
    (exampleTrackerParams "GPS") exampleReport []
    (exampleWorld [exampleLast] (Outcome.resolved []))
    (by
      have hne : ¬ ("GPS" = "GSM") := by decide
      simp [Run.stationaryTaken, Run.updates, insert_coordinates, exampleWorld, query_then,
        movementCondition, getDistance, constantDistance, stationary, Run.after,
        exampleTrackerParams, JSVal.looseEqStr, exampleTracker, Tracker.get, hne]
      norm_num
      simp)

/-- C5, counterexample: a report without an id, dated 10:00:00.000 and processed when the
clock reads 10:00:05.250, is written under the key of the clock reading, not under the
key of its own datetime. -/
theorem key_is_not_the_report_datetime :
    Obj.has exampleReport.fields "id" = false ∧
    Obj.get exampleReport.fields "datetime" = JSVal.date exampleTime ∧
    moment_format exampleTime "YYYY_MM_DD_hh_mm_ss_SSS" = "2018_01_01_10_00_00_000" ∧
    (insert_coordinates (constantDistance 0) exampleTracker (exampleTrackerParams "GPS")
      exampleReport [] (exampleWorld [] (Outcome.resolved []))).sets.map Prod.fst
      = ["2018_01_01_10_00_05_250"] ∧
    (insert_coordinates (constantDistance 0) exampleTracker (exampleTrackerParams "GPS")
      exampleReport [] (exampleWorld [] (Outcome.resolved []))).sets.map Prod.fst
      ≠ [moment_format exampleTime "YYYY_MM_DD_hh_mm_ss_SSS"] := by
  refine ⟨by decide, by decide, by decide, by decide, by decide⟩

/-- C5 amended, at concrete inputs: a first report with id `"A7"` is written under the
key `A7`. -/
theorem movement_key_example :
    ((insert_coordinates (constantDistance 0) exampleTracker (exampleTrackerParams "GPS")
      { exampleReport with fields := [("id", JSVal.str "A7")] } []
      (exampleWorld [] (Outcome.resolved []))).sets.head?).map Prod.fst = some "A7" := by
  obtain ⟨hne, hall⟩ := movement_key_is_id_or_clock (constantDistance 0) exampleTracker
    (exampleTrackerParams "GPS") { exampleReport with fields := [("id", JSVal.str "A7")] } []
    (exampleWorld [] (Outcome.resolved [])) (by decide)
  revert hne hall
  generalize (insert_coordinates (constantDistance 0) exampleTracker
    (exampleTrackerParams "GPS") { exampleReport with fields := [("id", JSVal.str "A7")] } []
    (exampleWorld [] (Outcome.resolved []))).sets = l
  intro hne hall
  cases l with
  | nil => exact absurd rfl hne
  | cons e rest =>
    have he : e.1 = "A7" := (hall e (List.mem_cons_self e rest)).1 (by decide)
    simp [he]

/-- C6, at concrete inputs: a rejected tracker write and a rejected query each end the
call without any further effect. -/
theorem failure_aborts_examples :
    ((insert_coordinates (constantDistance 0) exampleTracker (exampleTrackerParams "GPS")
        exampleReport [] failedWriteWorld).queries = 0 ∧
      (insert_coordinates (constantDistance 0) exampleTracker (exampleTrackerParams "GPS")
        exampleReport [] failedWriteWorld).reverseCalls = 0 ∧
      (insert_coordinates (constantDistance 0) exampleTracker (exampleTrackerParams "GPS")
        exampleReport [] failedWriteWorld).sets = [] ∧
      (insert_coordinates (constantDistance 0) exampleTracker (exampleTrackerParams "GPS")
        exampleReport [] failedWriteWorld).updates = [] ∧
      (insert_coordinates (constantDistance 0) exampleTracker (exampleTrackerParams "GPS")
        exampleReport [] failedWriteWorld).topics = [] ∧
      (insert_coordinates (constantDistance 0) exampleTracker (exampleTrackerParams "GPS")
        exampleReport [] failedWriteWorld).unhandledRejection = false) ∧
    ((insert_coordinates (constantDistance 0) exampleTracker (exampleTrackerParams "GPS")
        exampleReport [] failedQueryWorld).reverseCalls = 0 ∧
      (insert_coordinates (constantDistance 0) exampleTracker (exampleTrackerParams "GPS")
        exampleReport [] failedQueryWorld).sets = [] ∧
      (insert_coordinates (constantDistance 0) exampleTracker (exampleTrackerParams "GPS")
        exampleReport [] failedQueryWorld).updates = [] ∧
      (insert_coordinates (constantDistance 0) exampleTracker (exampleTrackerParams "GPS")
        exampleReport [] failedQueryWorld).topics = [] ∧
      (insert_coordinates (constantDistance 0) exampleTracker (exampleTrackerParams "GPS")
        exampleReport [] failedQueryWorld).unhandledRejection = false) :=
  ⟨(failure_aborts_the_call (constantDistance 0) exampleTracker (exampleTrackerParams "GPS")
      exampleReport [] failedWriteWorld).1 "UNAVAILABLE" rfl,
   (failure_aborts_the_call (constantDistance 0) exampleTracker (exampleTrackerParams "GPS")
      exampleReport [] failedQueryWorld).2 "UNAVAILABLE" rfl rfl⟩

/-- C9: for a string made of at least three decimal digits `ds`, a point and a digit
fraction `fs`, `parseCoordinate` returns `D + M/60`, where `D` is the Number of the
integer written by the digits of `ds` except the last two and `M` is the Number of the
decimal number written by the last two digits of `ds`, the point and `fs`; the result
is multiplied by `-1` exactly when the orientation is `"S"` or `"W"`.  The sum, the
quotient and the product are those of the carrier, whatever its arithmetic (IEEE
doubles or exact). -/
theorem parseCoordinate_degrees_minutes {α : Type} [Add α] [Mul α] [Div α] [Neg α]
    [OfScientific α] (N : NumberSystem α) (ds fs orientation : JSString)
    (hds : ∀ c ∈ ds, isDecimalDigit c = true) (hfs : ∀ c ∈ fs, isDecimalDigit c = true)
    (hlen : 3 ≤ ds.length) :
    parseCoordinate N (ds ++ 46 :: fs) orientation =
      (if orientation = codeUnits "S" ∨ orientation = codeUnits "W"
        then (N.ofMathematical (writtenInteger (ds.take (ds.length - 2)))
          + N.ofMathematical (writtenDecimal (ds.drop (ds.length - 2)) fs) / (60.0 : α))
            * -(1.0 : α)
        else N.ofMathematical (writtenInteger (ds.take (ds.length - 2)))
          + N.ofMathematical (writtenDecimal (ds.drop (ds.length - 2)) fs) / (60.0 : α)) := by
  have hdeg : ds.take (ds.length - 2) ≠ [] := by
    intro h
    have := congrArg List.length h
    simp only [List.length_take, List.length_nil] at this
    omega
  have hmin : ds.drop (ds.length - 2) ≠ [] := by
    intro h
    have := congrArg List.length h
    simp only [List.length_drop, List.length_nil] at this
    omega
  have h1 := parseInt_of_digits N (ds.take (ds.length - 2)) hdeg
    (fun c hc => hds c (List.mem_of_mem_take hc))
  have h2 := parseFloat_of_digits N (ds.drop (ds.length - 2)) fs hmin
    (fun c hc => hds c (List.mem_of_mem_drop hc)) hfs
  unfold parseCoordinate
  simp only [indexOf_dot ds fs hds, substring_degrees ds fs (by omega),
    substring_minutes ds fs (by omega), h1, h2, decimalValue_eq_writtenInteger, writtenDecimal]

/-- C9, at the input of the specification: `parseCoordinate("2230.1234", "S")` is the
Number computed as `(22 + 30.1234 / 60) * -1`. -/
theorem parseCoordinate_example :
    parseCoordinate symbolicNumbers (codeUnits "2230.1234") (codeUnits "S") =
      (NumExpr.number 22 + NumExpr.number 30.1234 / NumExpr.number 60)
        * -(NumExpr.number 1) := by
  have h := parseCoordinate_degrees_minutes symbolicNumbers [50, 50, 51, 48] [49, 50, 51, 52]
    (codeUnits "S") (by decide) (by decide) (by decide)
  have hs : codeUnits "2230.1234" = [50, 50, 51, 48] ++ 46 :: [49, 50, 51, 52] := by decide
  rw [hs, h, if_pos (Or.inl rfl)]
  have hD : ((writtenInteger (List.take ([50, 50, 51, 48].length - 2) [50, 50, 51, 48]) : ℕ)
      : ℚ) = 22 := by
    norm_num [writtenInteger, decimalDigitValue, Nat.ofDigits]
  have hM : writtenDecimal (List.drop ([50, 50, 51, 48].length - 2) [50, 50, 51, 48])
      [49, 50, 51, 52] = 30.1234 := by
    norm_num [writtenDecimal, writtenInteger, decimalDigitValue, Nat.ofDigits]
  have h60 : (60.0 : NumExpr) = NumExpr.number 60 := by
    show NumExpr.number _ = NumExpr.number 60
    norm_num
  have h1 : (1.0 : NumExpr) = NumExpr.number 1 := by
    show NumExpr.number _ = NumExpr.number 1
    norm_num
  rw [hD, hM, h60, h1]
  rfl

/-! ## Further observations -/

/-- When `sendNotification` throws inside the `.then` handler of the geocoder, the
`.catch` handler runs as if geocoding had failed: the document is written a second time,
with the fallback address, and `sendNotification` is called a second time. -/
theorem notification_repeated_when_first_call_throws :
    (insert_coordinates (constantDistance 0) exampleTracker (exampleTrackerParams "GPS")
      exampleReport [] (throwingNotifierWorld [] (Outcome.resolved [⟨JSVal.str "Rua A, 1"⟩]))).topics = ["Notify_Movement", "Notify_Movement"] ∧
    (insert_coordinates (constantDistance 0) exampleTracker (exampleTrackerParams "GPS")
      exampleReport [] (throwingNotifierWorld [] (Outcome.resolved [⟨JSVal.str "Rua A, 1"⟩]))).sets.map (fun e => Obj.get e.2.fields "address")
      = [JSVal.str "Rua A, 1", JSVal.str "Endereço próximo à coordenada não disponível."] := by
  refine ⟨by decide, by decide⟩

/-- An id equal to 0 is falsy: the document of such a report is keyed by the clock
reading, as if the report had no id. -/
theorem zero_id_is_keyed_by_clock :
    (insert_coordinates (constantDistance 0) exampleTracker (exampleTrackerParams "GPS")
      { exampleReport with fields := [("id", JSVal.num 0)] } []
      (exampleWorld [] (Outcome.resolved []))).sets.map Prod.fst
      = ["2018_01_01_10_00_05_250"] := by
  decide

end TrackerJS
